import Mathlib

/-!
# Verification of the gnosis-agent strategy pipeline

This file is a shallow embedding, in Lean 4, of the strategy aggregation,
scoring, caching, portfolio-optimization and transaction-building logic of
the `gnosis-agent` repository, together with theorems settling the claims
of the specification against that embedding.

Modelling conventions, used throughout:

* JavaScript numbers are modelled as `ℚ` (rationals).  The code never relies
  on float rounding; where a JavaScript expression would produce `NaN`
  (division by a zero sum), the model uses Lean's total division `q / 0 = 0`
  and, where a claim is about the division itself, a separate predicate marks
  the inputs on which the source performs a division by zero.
* Numeric strings (`strategy.apy = "5.20%"`, `searchParams.get('minApy')`)
  are modelled by their parsed rational values where only the value is used;
  the cache key, which uses the raw query strings, keeps `Option String`.
* `BigInt` wei amounts are `Nat`; `parseEther(amount)` is modelled by taking
  the already-parsed wei value as the input.
* `fetch` results are passed as `Except Unit _` arguments: `.ok` is a
  successful fetch, `.error` a failed one, mirroring `try/catch` blocks.
* viem's `encodeFunctionData` is modelled symbolically by an inductive
  `CallData` recording the function selector and its decoded arguments: all
  the claims speak about the arguments handed to the encoder, never about
  the ABI byte string itself.
-/

namespace GnosisAgent

/-! ## Risk classification (`get-strategies/route.ts` and `services/graph/utils.ts`) -/

/-- `getRiskLevel` from `src/app/api/pilot/get-strategies/route.ts` (lines
144–148): low iff stablecoin and no impermanent-loss risk; else high iff
APY above 20, or IL risk high, or bad outlook; else medium. -/
def getRiskLevel (apy : ℚ) (il_risk : String) (outlook : String) (stablecoin : Bool) : String :=
  if stablecoin ∧ il_risk = "no" then "low"
  else if apy > 20 ∨ il_risk = "high" ∨ outlook = "bad" then "high"
  else "medium"

/-- The risk rule as worded by the spec (§4.1), written independently for the
refinement comparison: low risk iff (is-stablecoin AND impermanent-loss-risk
is "no"); high risk iff (apy > 20% OR impermanent-loss-risk is "high" OR
outlook is "bad"); medium otherwise. -/
def specRiskRule (apy : ℚ) (ilRisk : String) (outlook : String) (stablecoin : Bool) : String :=
  if stablecoin = true ∧ ilRisk = "no" then "low"
  else if 20 < apy ∨ ilRisk = "high" ∨ outlook = "bad" then "high"
  else "medium"

/-- `getRiskLevel` from `src/app/services/graph/utils.ts` (lines 74–93), the
variant used by the subgraph normalizers: low iff (stablecoin or stable-swap)
and APY below 15; else high iff APY above 50 or impermanent-loss risk
`high`; else medium.  The `impermanentLossRisk` option is one of
`low`/`medium`/`high` or absent — the rule has no `outlook` input and no
`"no"` IL level. -/
def utilsGetRiskLevel (apy : ℚ) (isStablecoin : Bool) (isStableSwap : Bool)
    (impermanentLossRisk : Option String) : String :=
  if (isStablecoin ∨ isStableSwap) ∧ apy < 15 then "low"
  else if apy > 50 ∨ impermanentLossRisk = some "high" then "high"
  else "medium"

/-- C4, counterexample.  The claim quantifies over *every* normalized
strategy and cites both risk-rule implementations; the utils variant used by
the subgraph normalizers (e.g. `honeyswap.ts` line 265) is a different
function: at APY 60 a stablecoin pool with no impermanent-loss option is
classified `high`, while the spec's rule (and the route's `getRiskLevel`)
classifies a stablecoin pool with IL risk `"no"` as `low` regardless of APY. -/
theorem riskLevel_utils_variant_diverges :
    utilsGetRiskLevel 60 true false none = "high" ∧
    getRiskLevel 60 "no" "neutral" true = "low" := by
  constructor <;> decide

/-- C4, amended.  The route's `getRiskLevel` (the rule applied to every
strategy normalized by `get-strategies`) coincides with the spec's rule,
always yields one of `low`/`medium`/`high`, and classifies a stablecoin pool
with impermanent-loss risk `"no"` as `low` (never `high`) regardless of APY;
the utils variant used by the subgraph normalizers follows a different rule
(see `riskLevel_utils_variant_diverges`). -/
theorem riskLevel_route_deterministic (apy : ℚ) (il_risk outlook : String) (stablecoin : Bool) :
    getRiskLevel apy il_risk outlook stablecoin = specRiskRule apy il_risk outlook stablecoin ∧
    getRiskLevel apy il_risk outlook stablecoin ∈ ["low", "medium", "high"] ∧
    (stablecoin = true → il_risk = "no" →
      getRiskLevel apy il_risk outlook stablecoin = "low") := by
  refine ⟨rfl, ?_, ?_⟩
  · unfold getRiskLevel
    split
    · simp
    · split <;> simp
  · intro hs hil
    unfold getRiskLevel
    rw [if_pos ⟨by simp [hs], hil⟩]

/-- Witness for `riskLevel_route_deterministic` at a concrete input. -/
theorem riskLevel_route_deterministic_witness :
    getRiskLevel 35 "no" "neutral" true = specRiskRule 35 "no" "neutral" true ∧
    getRiskLevel 35 "no" "neutral" true ∈ ["low", "medium", "high"] ∧
    getRiskLevel 35 "no" "neutral" true = "low" := by
  have h := riskLevel_route_deterministic 35 "no" "neutral" true
  exact ⟨h.1, h.2.1, h.2.2 rfl rfl⟩

/-! ## Shared contract configuration (`src/app/config/contracts.ts`, duplicated
as module-level constants in `execute-strategy/route.ts`) -/

/-- The static protocol → router/vault address registry. -/
def PROTOCOL_ROUTERS : List (String × String) := [
  ("agave", "0x5E15d5E33d318dCEd84Bfe3F4EACe07909bE6d99"),
  ("aave", "0xb50201558B00496A145fE76f7424749556E326D8"),
  ("honeyswap", "0x1C232F01118CB8B424793ae03F870aa7D0ac7f77"),
  ("sushiswap", "0x1b02dA8Cb0d097eB8D57A175b88c7D8b47997506"),
  ("curve", "0x0C0BF2bD544566A11f59dC70a8F43659ac2FE7c2"),
  ("balancer", "0xBA12222222228d8Ba445958a75a0704d566BF2C8"),
  ("stakewise", "0xA4C637e0F704745D782e4C6e12c7dF7C7dCC8F5e"),
  ("hyperdrive", "0x25431341A5800759268a6aC1d3CD91C029D7d9f3"),
  ("sparklend", "0x2E7d06F1b3a80593f9ab038C94cC64ad175fa8dd"),
  ("aura", "0x6A9fF81bbFaD6f8f7654c4e51513e26507680640"),
  ("honeycomb", "0x77F99B212Ef4C78c64b7BAD038A7FE6882Bc9BF1")]

def BALANCER_VAULT : String := "0xBA12222222228d8Ba445958a75a0704d566BF2C8"

/-- Aura/Balancer pool-id registry; the source registers a single pool. -/
def POOL_IDS : List (String × String) := [
  ("SDAI-STATAGNOUSDCE",
   "0x00d7c137996aa7bf16d83ecbfd4d3d5cce77c0c8000200000000000000000a25")]

def NATIVE_TOKEN_ADDRESS : String := "0xEeeeeEeeeEeEeeEeEeEeeEEEeeeeEeeeeeeeEEeE"

def ZERO_ADDRESS : String := "0x0000000000000000000000000000000000000000"

def WXDAI_ADDRESS : String := "0xe91D153E0b41518A2Ce8Dd3D7944Fa863463a97d"

/-- `MAX_APPROVAL`, the decimal literal from the source. -/
def MAX_APPROVAL : Nat :=
  115792089237316195423570985008687907853269984665640564039457584007913129639935

/-- `String.prototype.toLowerCase()`.  This is core's `String.toLower`
(`map Char.toLower`) written through `String.mk` so that concrete runs
reduce inside the kernel. -/
def jsToLower (s : String) : String := String.mk (s.data.map Char.toLower)

/-- `isNativeTokenAddress`: the address is the native-token sentinel or the
zero address (case-insensitively). -/
def isNativeTokenAddress (address : String) : Bool :=
  let lowerAddress := jsToLower address
  lowerAddress == jsToLower NATIVE_TOKEN_ADDRESS || lowerAddress == jsToLower ZERO_ADDRESS

/-! ## Symbolic call data

`encodeFunctionData` is modelled symbolically: one constructor per ABI entry
of `FUNCTION_ABIS` that the builders actually encode, carrying the decoded
argument list in source order. -/

/-- The userData bytes built by `encodeBalancerJoinPoolData`: an encoded
`joinExactTokensInForBPTOut(amountsIn, minimumBPT)` call. -/
structure BalancerJoinUserData where
  amountsIn : List Nat
  minimumBPT : Nat
deriving DecidableEq, Repr

deriving instance DecidableEq for Except

inductive CallData where
  | approve (spender : String) (amount : Nat)
  | supply (asset : String) (amount : Nat) (onBehalfOf : String) (referralCode : Nat)
  | agaveDeposit (asset : String) (amount : Nat) (onBehalfOf : String) (referralCode : Nat)
  | addLiquidity (tokenA tokenB : String)
      (amountADesired amountBDesired amountAMin amountBMin : Nat)
      (toAddr : String) (deadline : Nat)
  | addLiquidityETH (token : String)
      (amountTokenDesired amountTokenMin amountETHMin : Nat)
      (toAddr : String) (deadline : Nat)
  | curveAddLiquidity (amounts : List Nat) (minMintAmount : Nat)
  | joinPool (poolId sender recipient : String) (assets : List String)
      (maxAmountsIn : List Nat) (userData : BalancerJoinUserData)
      (fromInternalBalance : Bool)
  | joinPoolETH (poolId recipient : String) (assets : List String)
      (maxAmountsIn : List Nat) (userData : BalancerJoinUserData)
      (fromInternalBalance : Bool)
  | stake (amount : Nat)
  | deposit (amount : Nat)
deriving DecidableEq, Repr

/-- `encodeBalancerJoinPoolData(amountIn)`: exact-tokens-in join funding only
the first token, zero minimum BPT. -/
def encodeBalancerJoinPoolData (amountIn : Nat) : BalancerJoinUserData :=
  { amountsIn := [amountIn, 0], minimumBPT := 0 }

/-- The `EnhancedStrategy` fields consumed by the transaction builders.
`underlyingTokens` is `string[] | null | undefined` in the source, hence
`Option`. -/
structure FeedStrategy where
  id : String
  name : String
  protocol : String
  type : String
  underlyingTokens : Option (List String)
deriving DecidableEq, Repr

namespace ExecuteStrategy

/-- `MetaTransaction` of `execute-strategy/route.ts`; `value` is the wei
value (the source's `'0x0'` is 0). -/
structure MetaTransaction where
  toAddr : String
  data : CallData
  value : Nat
  fromAddr : String
deriving DecidableEq, Repr

structure SignRequestData where
  method : String
  chainId : Nat
  params : List MetaTransaction
deriving DecidableEq, Repr

structure ResponseMeta where
  strategyId : String
  protocol : String
  type : String
deriving DecidableEq, Repr

structure ExecuteStrategyResponse where
  signRequest : SignRequestData
  message : String
  meta : ResponseMeta
deriving DecidableEq, Repr

/-- `createApprovalTransaction`: an unlimited approval (`MAX_APPROVAL`, never
the requested amount) of `spenderAddress` on the token contract. -/
def createApprovalTransaction (tokenAddress spenderAddress userAddress : String) :
    MetaTransaction :=
  { toAddr := tokenAddress
    data := CallData.approve spenderAddress MAX_APPROVAL
    value := 0
    fromAddr := userAddress }

/-- Pool-id resolution of the Aura/Balancer branch.  The source extracts a
pool name from `strategy.name` — directly when the name contains the literal
`"SDAI-STATAGNOUSDCE"`, otherwise by regex fallback — and looks it up in
`POOL_IDS`.  Both regex fallbacks can only return substrings of the name,
and `POOL_IDS` registers the single key `"SDAI-STATAGNOUSDCE"`, so the
lookup succeeds exactly when the name contains that key (any name containing
it takes the first branch); the model collapses the extraction accordingly. -/
def lookupPoolId (name : String) : Option String :=
  if (name.splitOn "SDAI-STATAGNOUSDCE").length > 1 then
    POOL_IDS.lookup "SDAI-STATAGNOUSDCE"
  else
    none

/-- The per-branch outcome of `generateTransactionData`: the approval steps
pushed by the branch, the encoded main call, and the target address. -/
structure BranchResult where
  approvals : List MetaTransaction
  txData : CallData
  targetAddress : String
deriving DecidableEq, Repr

/-- `generateTransactionData` of `execute-strategy/route.ts` (lines 325–656).
Arguments: the DeFiLlama strategy list (the awaited fetch result), the
strategy id, the requested amount already converted to wei
(`parseEther(amount)`), the user address, `Date.now()` in milliseconds, and
the `action` body field, which the source accepts (default `'enter'`) but
never reads.  Errors thrown inside the source's `try` are surfaced as
`Except.error` (the route turns them into an HTTP 500). -/
def generateTransactionData (strategies : List FeedStrategy) (strategyId : String)
    (amountWei : Nat) (userAddress : String) (nowMs : Nat)
    (action : String := "enter") : Except String ExecuteStrategyResponse :=
  match strategies.find? (fun s => s.id == strategyId) with
  | none => Except.error "Strategy not found"
  | some strategy =>
    match strategy.underlyingTokens with
    | none => Except.error "strategy has no underlying tokens defined"
    | some [] => Except.error "strategy has no underlying tokens defined"
    | some (tokenAddress :: restTokens) =>
      if tokenAddress = "" then Except.error "Invalid token address for strategy"
      else
        match PROTOCOL_ROUTERS.lookup (jsToLower strategy.protocol) with
        | none => Except.error "Router address not available"
        | some routerAddress =>
          let protocolKey := (jsToLower strategy.protocol)
          let amountInWei := amountWei
          let isNativeToken := isNativeTokenAddress tokenAddress
          let branch : Except String BranchResult :=
            if strategy.type == "Lending" then
              -- the source sets `requiresApproval = !isNativeToken` here but
              -- never pushes an approval in this branch
              let asset := if isNativeToken then WXDAI_ADDRESS else tokenAddress
              if protocolKey == "agave" then
                Except.ok ⟨[], CallData.agaveDeposit asset amountWei userAddress 0,
                  routerAddress⟩
              else
                Except.ok ⟨[], CallData.supply asset amountWei userAddress 0,
                  routerAddress⟩
            else if strategy.type == "Liquidity Providing" then
              if protocolKey == "aura" || protocolKey == "balancer" then
                match lookupPoolId strategy.name with
                | none => Except.error "Pool ID not found for Aura/Balancer strategy"
                | some poolId =>
                  let approvals :=
                    if !isNativeToken then
                      [createApprovalTransaction tokenAddress BALANCER_VAULT userAddress]
                    else []
                  if isNativeToken then
                    let tokensArray := WXDAI_ADDRESS :: restTokens
                    let maxAmountsIn := tokensArray.enum.map
                      (fun p => if p.1 == 0 then amountWei else 0)
                    Except.ok ⟨approvals,
                      CallData.joinPoolETH poolId userAddress tokensArray maxAmountsIn
                        (encodeBalancerJoinPoolData amountWei) false,
                      BALANCER_VAULT⟩
                  else
                    let tokensArray := tokenAddress :: restTokens
                    let maxAmountsIn := tokensArray.enum.map
                      (fun p => if p.1 == 0 then amountWei else 0)
                    Except.ok ⟨approvals,
                      CallData.joinPool poolId userAddress userAddress tokensArray
                        maxAmountsIn (encodeBalancerJoinPoolData amountWei) false,
                      BALANCER_VAULT⟩
              else if protocolKey == "curve" then
                let approvals :=
                  if !isNativeToken then
                    [createApprovalTransaction tokenAddress routerAddress userAddress]
                  else []
                Except.ok ⟨approvals,
                  CallData.curveAddLiquidity [amountWei, 0, 0, 0] 0, routerAddress⟩
              else
                match restTokens with
                | [] => Except.error "Liquidity providing strategy requires at least 2 tokens"
                | tokenB :: _ =>
                  if tokenB = "" then Except.error "Invalid second token address for strategy"
                  else
                    let tokenBIsNative := isNativeTokenAddress tokenB
                    let approvals :=
                      (if !isNativeToken then
                        [createApprovalTransaction tokenAddress routerAddress userAddress]
                       else []) ++
                      (if !tokenBIsNative && !isNativeToken then
                        [createApprovalTransaction tokenB routerAddress userAddress]
                       else [])
                    if isNativeToken || tokenBIsNative then
                      Except.ok ⟨approvals,
                        CallData.addLiquidityETH
                          (if isNativeToken then tokenB else tokenAddress)
                          amountWei 0 0 userAddress (nowMs / 1000 + 3600),
                        routerAddress⟩
                    else
                      Except.ok ⟨approvals,
                        CallData.addLiquidity tokenAddress tokenB
                          amountWei amountWei 0 0 userAddress (nowMs / 1000 + 3600),
                        routerAddress⟩
            else if strategy.type == "Staking" then
              let approvals :=
                if !isNativeToken then
                  [createApprovalTransaction tokenAddress routerAddress userAddress]
                else []
              Except.ok ⟨approvals, CallData.stake amountWei, routerAddress⟩
            else
              let approvals :=
                if !isNativeToken then
                  [createApprovalTransaction tokenAddress routerAddress userAddress]
                else []
              Except.ok ⟨approvals, CallData.deposit amountWei, routerAddress⟩
          match branch with
          | Except.error e => Except.error e
          | Except.ok b =>
            let mainTx : MetaTransaction :=
              { toAddr := b.targetAddress
                data := b.txData
                value := if isNativeToken then amountInWei else 0
                fromAddr := userAddress }
            Except.ok
              { signRequest :=
                  { method := "eth_sendTransaction"
                    chainId := 100
                    params := b.approvals ++ [mainTx] }
                message := "Transaction data generated successfully for " ++ strategy.name
                meta :=
                  { strategyId := strategyId
                    protocol := strategy.protocol
                    type := strategy.type } }

end ExecuteStrategy

namespace CreateTransaction

/-!
The second `generateTransactionData` variant (the `create-transaction`
implementation bundled with `strategy-details/route.ts`), which dispatches on
an explicit `action` parameter and emits Safe-format transactions.
-/

/-- `SafeTransaction`; `value` is the wei value (`'0'` is 0), `operation` 0
is a plain call. -/
structure SafeTransaction where
  toAddr : String
  data : CallData
  value : Nat
  operation : Nat
deriving DecidableEq, Repr

/-- The legacy single-transaction payload returned alongside the Safe batch. -/
structure TransactionPayload where
  toAddr : String
  fromAddr : String
  value : Nat
  data : CallData
  chainId : Nat
deriving DecidableEq, Repr

structure CreateTransactionResponse where
  safeTransactionData : List SafeTransaction
  chainId : Nat
  message : String
  metaStrategyId : String
  metaProtocol : String
  metaAction : String
  transactionPayload : TransactionPayload
deriving DecidableEq, Repr

/-- `createApprovalTransaction` (Safe format): unlimited `MAX_APPROVAL`
approval of the spender on the token contract. -/
def createApprovalTransaction (tokenAddress spenderAddress : String) :
    SafeTransaction :=
  { toAddr := tokenAddress
    data := CallData.approve spenderAddress MAX_APPROVAL
    value := 0
    operation := 0 }

/-- `mapActionToFunction` (lines 787–806): maps user-facing actions to
function names.  `exit`/`withdraw` map to `withdraw`, `removeliquidity` to
`removeLiquidity` and `unstake` to `unstake`, but the dispatch in
`generateTransactionData` never tests for those values, so they fall into
the default deposit branch. -/
def mapActionToFunction (action strategyType : String) : String :=
  match jsToLower action with
  | "enter" => if strategyType == "Lending" then "supply" else "deposit"
  | "deposit" => if strategyType == "Lending" then "supply" else "deposit"
  | "exit" => "withdraw"
  | "withdraw" => "withdraw"
  | "addliquidity" => "addLiquidity"
  | "removeliquidity" => "removeLiquidity"
  | "stake" => "stake"
  | "unstake" => "unstake"
  | _ => "deposit"

/-- The `validActions` whitelist checked by the route's `GET` handler before
calling `generateTransactionData`. -/
def validActions : List String :=
  ["deposit", "withdraw", "addLiquidity", "removeLiquidity", "stake", "unstake",
   "enter", "exit"]

/-- Per-branch outcome: the Safe transactions pushed by the branch (approvals
followed by the branch's main transaction), the main call data and the
target address. -/
structure BranchResult where
  safeTransactions : List SafeTransaction
  txData : CallData
  targetAddress : String
deriving DecidableEq, Repr

/-- `generateTransactionData` of the `create-transaction` variant (lines
469–784).  Arguments as in `ExecuteStrategy.generateTransactionData`, with
`action` dispatched through `mapActionToFunction`. -/
def generateTransactionData (strategies : List FeedStrategy) (strategyId action : String)
    (amountWei : Nat) (userAddress : String) (nowMs : Nat) :
    Except String CreateTransactionResponse :=
  match strategies.find? (fun s => s.id == strategyId) with
  | none => Except.error "Strategy not found"
  | some strategy =>
    let mappedAction := mapActionToFunction action strategy.type
    -- `strategy.underlyingTokens && length > 0 ? underlyingTokens[0] : ZERO_ADDRESS`
    let tokenAddress :=
      match strategy.underlyingTokens with
      | some (t :: _) => t
      | _ => ZERO_ADDRESS
    if tokenAddress = "" then Except.error "Invalid token address for strategy"
    else
      match PROTOCOL_ROUTERS.lookup (jsToLower strategy.protocol) with
      | none => Except.error "Router address not available"
      | some routerAddress =>
        let protocolKey := (jsToLower strategy.protocol)
        let amountInWei := amountWei
        let isNativeToken := isNativeTokenAddress tokenAddress
        let branch : Except String BranchResult :=
          if mappedAction == "supply" || action == "deposit" || action == "enter" then
            let requiresApproval := !isNativeToken
            let asset := if isNativeToken then WXDAI_ADDRESS else tokenAddress
            let approvals :=
              if requiresApproval then
                [createApprovalTransaction tokenAddress routerAddress]
              else []
            let txData :=
              if protocolKey == "agave" then
                CallData.agaveDeposit asset amountWei userAddress 0
              else
                CallData.supply asset amountWei userAddress 0
            let mainTx : SafeTransaction :=
              { toAddr := routerAddress, data := txData
                value := if isNativeToken then amountInWei else 0, operation := 0 }
            Except.ok ⟨approvals ++ [mainTx], txData, routerAddress⟩
          else if mappedAction == "addLiquidity" || action == "addLiquidity" then
            if protocolKey == "aura" || protocolKey == "balancer" then
              Except.error
                "Balancer/Aura pool joining not yet implemented in this endpoint. Use execute-strategy instead"
            else if protocolKey == "curve" then
              let approvals :=
                if !isNativeToken then
                  [createApprovalTransaction tokenAddress routerAddress]
                else []
              let txData := CallData.curveAddLiquidity [amountWei, 0, 0, 0] 0
              let mainTx : SafeTransaction :=
                { toAddr := routerAddress, data := txData
                  value := if isNativeToken then amountInWei else 0, operation := 0 }
              Except.ok ⟨approvals ++ [mainTx], txData, routerAddress⟩
            else
              match strategy.underlyingTokens with
              | none => Except.error "Liquidity providing strategy requires at least 2 tokens"
              | some tokens =>
                match tokens with
                | [] => Except.error "Liquidity providing strategy requires at least 2 tokens"
                | [_] => Except.error "Liquidity providing strategy requires at least 2 tokens"
                | _ :: tokenB :: _ =>
                  if tokenB = "" then Except.error "Invalid second token address for strategy"
                  else
                    let tokenBIsNative := isNativeTokenAddress tokenB
                    let approvals :=
                      (if !isNativeToken then
                        [createApprovalTransaction tokenAddress routerAddress]
                       else []) ++
                      (if !tokenBIsNative && !isNativeToken then
                        [createApprovalTransaction tokenB routerAddress]
                       else [])
                    if isNativeToken || tokenBIsNative then
                      let txData := CallData.addLiquidityETH
                        (if isNativeToken then tokenB else tokenAddress)
                        amountWei 0 0 userAddress (nowMs / 1000 + 3600)
                      let mainTx : SafeTransaction :=
                        { toAddr := routerAddress, data := txData
                          value := if isNativeToken then amountInWei else 0
                          operation := 0 }
                      Except.ok ⟨approvals ++ [mainTx], txData, routerAddress⟩
                    else
                      let txData := CallData.addLiquidity tokenAddress tokenB
                        amountWei amountWei 0 0 userAddress (nowMs / 1000 + 3600)
                      let mainTx : SafeTransaction :=
                        { toAddr := routerAddress, data := txData
                          value := 0, operation := 0 }
                      Except.ok ⟨approvals ++ [mainTx], txData, routerAddress⟩
          else if mappedAction == "stake" || action == "stake" then
            let approvals :=
              if !isNativeToken then
                [createApprovalTransaction tokenAddress routerAddress]
              else []
            let txData := CallData.stake amountWei
            let mainTx : SafeTransaction :=
              { toAddr := routerAddress, data := txData
                value := if isNativeToken then amountInWei else 0, operation := 0 }
            Except.ok ⟨approvals ++ [mainTx], txData, routerAddress⟩
          else
            -- default deposit branch: reached by `withdraw`, `exit`,
            -- `removeLiquidity`, `unstake` and any unknown action
            let approvals :=
              if !isNativeToken then
                [createApprovalTransaction tokenAddress routerAddress]
              else []
            let txData := CallData.deposit amountWei
            let mainTx : SafeTransaction :=
              { toAddr := routerAddress, data := txData
                value := if isNativeToken then amountInWei else 0, operation := 0 }
            Except.ok ⟨approvals ++ [mainTx], txData, routerAddress⟩
        match branch with
        | Except.error e => Except.error e
        | Except.ok b =>
          Except.ok
            { safeTransactionData := b.safeTransactions
              chainId := 100
              message := "Created transaction for " ++ strategy.protocol ++ " " ++
                action ++ " operation"
              metaStrategyId := strategyId
              metaProtocol := strategy.protocol
              metaAction := action
              transactionPayload :=
                { toAddr := b.targetAddress
                  fromAddr := userAddress
                  value := if isNativeToken then amountInWei else 0
                  data := b.txData
                  chainId := 100 } }

end CreateTransaction

/-! ## Claims C1, C2, C3, C10 — transaction construction -/

/-- Number of approval steps in an execute-strategy batch. -/
def countApprovalSteps (txs : List ExecuteStrategy.MetaTransaction) : Nat :=
  txs.countP (fun tx =>
    match tx.data with
    | CallData.approve _ _ => true
    | _ => false)

/-- A non-native ERC-20 USDC-style token address used in concrete runs. -/
def usdcAddress : String := "0xDDAfbb505ad214D7b80b1f830fcCc89B60fb7A83"

/-- A concrete user address used in concrete runs. -/
def sampleUser : String := "0x1111111111111111111111111111111111111111"

/-- A non-native lending strategy on Aave, as normalized from the feed. -/
def aaveUsdcStrategy : FeedStrategy :=
  { id := "aave-usdc"
    name := "aave-v3 USDC"
    protocol := "aave"
    type := "Lending"
    underlyingTokens := some [usdcAddress] }

/-- C1, failing input.  For a lending strategy whose primary token is a
non-native ERC-20, `execute-strategy` emits the `supply` call with **no**
approval step at all: the Lending branch computes `requiresApproval =
!isNativeToken` (line 380) but, unlike every other branch, never pushes the
approval transaction, so the batch is the single main call — not the
approval-then-supply sequence the claim (and §4.5 step 3 of the spec)
require. -/
theorem executeStrategy_lending_missing_approval :
    isNativeTokenAddress usdcAddress = false ∧
    ExecuteStrategy.generateTransactionData [aaveUsdcStrategy] "aave-usdc"
        1000000000000000000 sampleUser 1700000000000 "enter" =
      Except.ok
        { signRequest :=
            { method := "eth_sendTransaction"
              chainId := 100
              params := [
                { toAddr := "0xb50201558B00496A145fE76f7424749556E326D8"
                  data := CallData.supply usdcAddress 1000000000000000000 sampleUser 0
                  value := 0
                  fromAddr := sampleUser }] }
          message := "Transaction data generated successfully for aave-v3 USDC"
          meta := { strategyId := "aave-usdc", protocol := "aave", type := "Lending" } } ∧
    countApprovalSteps [
      { toAddr := "0xb50201558B00496A145fE76f7424749556E326D8"
        data := CallData.supply usdcAddress 1000000000000000000 sampleUser 0
        value := 0
        fromAddr := sampleUser }] = 0 := by
  refine ⟨by decide, by decide, by decide⟩

/-- C3, failing input.  `withdraw` is an accepted action (`validActions`)
whose construction path is not implemented, yet the `create-transaction`
variant does not fail: `mapActionToFunction` maps it to `"withdraw"`, no
dispatch arm tests for that value, and the default branch emits an
approve-then-generic-`deposit(amount)` batch — an *entry* call returned for
an exit request instead of a `NotImplemented` error. -/
theorem createTransaction_withdraw_emits_deposit :
    "withdraw" ∈ CreateTransaction.validActions ∧
    CreateTransaction.mapActionToFunction "withdraw" "Lending" = "withdraw" ∧
    CreateTransaction.generateTransactionData [aaveUsdcStrategy] "aave-usdc" "withdraw"
        1000000000000000000 sampleUser 1700000000000 =
      Except.ok
        { safeTransactionData := [
            { toAddr := usdcAddress
              data := CallData.approve "0xb50201558B00496A145fE76f7424749556E326D8"
                MAX_APPROVAL
              value := 0
              operation := 0 },
            { toAddr := "0xb50201558B00496A145fE76f7424749556E326D8"
              data := CallData.deposit 1000000000000000000
              value := 0
              operation := 0 }]
          chainId := 100
          message := "Created transaction for aave withdraw operation"
          metaStrategyId := "aave-usdc"
          metaProtocol := "aave"
          metaAction := "withdraw"
          transactionPayload :=
            { toAddr := "0xb50201558B00496A145fE76f7424749556E326D8"
              fromAddr := sampleUser
              value := 0
              data := CallData.deposit 1000000000000000000
              chainId := 100 } } := by
  refine ⟨by decide, by decide, by decide⟩

/-- C10.  The `action` body field accepted by `execute-strategy` is parsed
(and logged) but never read by `generateTransactionData`: for fixed
strategies, strategy id, amount, user address and clock, any two action
values — including the absent default `'enter'` — produce the identical
transaction batch. -/
theorem executeStrategy_action_has_no_influence
    (strategies : List FeedStrategy) (strategyId : String) (amountWei : Nat)
    (userAddress : String) (nowMs : Nat) (action₁ action₂ : String) :
    ExecuteStrategy.generateTransactionData strategies strategyId amountWei
        userAddress nowMs action₁ =
      ExecuteStrategy.generateTransactionData strategies strategyId amountWei
        userAddress nowMs action₂ := rfl

/-- C2.  For a two-token AMM liquidity-providing strategy outside the
Curve/Balancer families whose two underlying tokens are both non-native
ERC-20s, both builders produce exactly three steps — approve token A,
approve token B, then `addLiquidity` with both desired amounts equal to the
requested amount, zero minimum amounts and a deadline of the current time
plus one hour (`create-transaction` reaches this branch through the
`addLiquidity` action; `execute-strategy` dispatches on the strategy type
alone). -/
theorem amm_lp_batch_is_three_steps
    (strategies : List FeedStrategy) (strategy : FeedStrategy)
    (strategyId userAddress routerAddress : String) (amountWei nowMs : Nat)
    (action : String) (tokenA tokenB : String)
    (hFind : strategies.find? (fun s => s.id == strategyId) = some strategy)
    (hType : strategy.type = "Liquidity Providing")
    (hTokens : strategy.underlyingTokens = some [tokenA, tokenB])
    (hA : tokenA ≠ "") (hB : tokenB ≠ "")
    (hANat : isNativeTokenAddress tokenA = false)
    (hBNat : isNativeTokenAddress tokenB = false)
    (hRouter : PROTOCOL_ROUTERS.lookup (jsToLower strategy.protocol) = some routerAddress)
    (hAura : jsToLower strategy.protocol ≠ "aura")
    (hBal : jsToLower strategy.protocol ≠ "balancer")
    (hCurve : jsToLower strategy.protocol ≠ "curve") :
    ExecuteStrategy.generateTransactionData strategies strategyId amountWei
        userAddress nowMs action =
      Except.ok
        { signRequest :=
            { method := "eth_sendTransaction"
              chainId := 100
              params := [
                ExecuteStrategy.createApprovalTransaction tokenA routerAddress userAddress,
                ExecuteStrategy.createApprovalTransaction tokenB routerAddress userAddress,
                { toAddr := routerAddress
                  data := CallData.addLiquidity tokenA tokenB amountWei amountWei 0 0
                    userAddress (nowMs / 1000 + 3600)
                  value := 0
                  fromAddr := userAddress }] }
          message := "Transaction data generated successfully for " ++ strategy.name
          meta := { strategyId := strategyId, protocol := strategy.protocol
                    type := strategy.type } } ∧
    CreateTransaction.generateTransactionData strategies strategyId "addLiquidity"
        amountWei userAddress nowMs =
      Except.ok
        { safeTransactionData := [
            CreateTransaction.createApprovalTransaction tokenA routerAddress,
            CreateTransaction.createApprovalTransaction tokenB routerAddress,
            { toAddr := routerAddress
              data := CallData.addLiquidity tokenA tokenB amountWei amountWei 0 0
                userAddress (nowMs / 1000 + 3600)
              value := 0
              operation := 0 }]
          chainId := 100
          message := "Created transaction for " ++ strategy.protocol ++ " " ++
            "addLiquidity" ++ " operation"
          metaStrategyId := strategyId
          metaProtocol := strategy.protocol
          metaAction := "addLiquidity"
          transactionPayload :=
            { toAddr := routerAddress
              fromAddr := userAddress
              value := 0
              data := CallData.addLiquidity tokenA tokenB amountWei amountWei 0 0
                userAddress (nowMs / 1000 + 3600)
              chainId := 100 } } := by
  have hAura' : ((jsToLower strategy.protocol) == "aura") = false :=
    beq_eq_false_iff_ne.mpr hAura
  have hBal' : ((jsToLower strategy.protocol) == "balancer") = false :=
    beq_eq_false_iff_ne.mpr hBal
  have hCurve' : ((jsToLower strategy.protocol) == "curve") = false :=
    beq_eq_false_iff_ne.mpr hCurve
  constructor
  · unfold ExecuteStrategy.generateTransactionData
    rw [hFind]
    simp only [hType, hTokens, hRouter, hAura', hBal', hCurve', hANat, hBNat,
      if_neg hA, if_neg hB]
    rfl
  · have hmap : CreateTransaction.mapActionToFunction "addLiquidity" "Liquidity Providing"
        = "addLiquidity" := by decide
    unfold CreateTransaction.generateTransactionData
    rw [hFind]
    simp only [hType, hTokens, hRouter, hAura', hBal', hCurve', hANat, hBNat,
      if_neg hA, if_neg hB, hmap]
    rfl

/-- GNO token address on Gnosis Chain, used in concrete runs. -/
def gnoAddress : String := "0x9C58BAcC331c9aa871AFD802DB6379a98e80CEdb"

/-- A concrete two-token Honeyswap liquidity-providing strategy. -/
def honeyswapLpStrategy : FeedStrategy :=
  { id := "honeyswap-gno-wxdai"
    name := "honeyswap GNO-WXDAI"
    protocol := "honeyswap"
    type := "Liquidity Providing"
    underlyingTokens := some [gnoAddress, WXDAI_ADDRESS] }

/-- Witness for `amm_lp_batch_is_three_steps`: the concrete Honeyswap
GNO/WXDAI strategy with both tokens non-native. -/
theorem amm_lp_batch_is_three_steps_witness :
    ExecuteStrategy.generateTransactionData [honeyswapLpStrategy] "honeyswap-gno-wxdai"
        5000000000000000000 sampleUser 1700000000000 "enter" =
      Except.ok
        { signRequest :=
            { method := "eth_sendTransaction"
              chainId := 100
              params := [
                ExecuteStrategy.createApprovalTransaction gnoAddress
                  "0x1C232F01118CB8B424793ae03F870aa7D0ac7f77" sampleUser,
                ExecuteStrategy.createApprovalTransaction WXDAI_ADDRESS
                  "0x1C232F01118CB8B424793ae03F870aa7D0ac7f77" sampleUser,
                { toAddr := "0x1C232F01118CB8B424793ae03F870aa7D0ac7f77"
                  data := CallData.addLiquidity gnoAddress WXDAI_ADDRESS
                    5000000000000000000 5000000000000000000 0 0 sampleUser
                    (1700000000000 / 1000 + 3600)
                  value := 0
                  fromAddr := sampleUser }] }
          message := "Transaction data generated successfully for " ++
            honeyswapLpStrategy.name
          meta := { strategyId := "honeyswap-gno-wxdai", protocol := honeyswapLpStrategy.protocol
                    type := honeyswapLpStrategy.type } } ∧
    CreateTransaction.generateTransactionData [honeyswapLpStrategy] "honeyswap-gno-wxdai"
        "addLiquidity" 5000000000000000000 sampleUser 1700000000000 =
      Except.ok
        { safeTransactionData := [
            CreateTransaction.createApprovalTransaction gnoAddress
              "0x1C232F01118CB8B424793ae03F870aa7D0ac7f77",
            CreateTransaction.createApprovalTransaction WXDAI_ADDRESS
              "0x1C232F01118CB8B424793ae03F870aa7D0ac7f77",
            { toAddr := "0x1C232F01118CB8B424793ae03F870aa7D0ac7f77"
              data := CallData.addLiquidity gnoAddress WXDAI_ADDRESS
                5000000000000000000 5000000000000000000 0 0 sampleUser
                (1700000000000 / 1000 + 3600)
              value := 0
              operation := 0 }]
          chainId := 100
          message := "Created transaction for " ++ honeyswapLpStrategy.protocol ++ " " ++
            "addLiquidity" ++ " operation"
          metaStrategyId := "honeyswap-gno-wxdai"
          metaProtocol := honeyswapLpStrategy.protocol
          metaAction := "addLiquidity"
          transactionPayload :=
            { toAddr := "0x1C232F01118CB8B424793ae03F870aa7D0ac7f77"
              fromAddr := sampleUser
              value := 0
              data := CallData.addLiquidity gnoAddress WXDAI_ADDRESS
                5000000000000000000 5000000000000000000 0 0 sampleUser
                (1700000000000 / 1000 + 3600)
              chainId := 100 } } :=
  amm_lp_batch_is_three_steps [honeyswapLpStrategy] honeyswapLpStrategy
    "honeyswap-gno-wxdai" sampleUser "0x1C232F01118CB8B424793ae03F870aa7D0ac7f77"
    5000000000000000000 1700000000000 "enter" gnoAddress WXDAI_ADDRESS
    (by decide) (by decide) (by decide) (by decide) (by decide)
    (by decide) (by decide) (by decide) (by decide) (by decide) (by decide)

/-! ## Claims C7, C8 — the allocation optimizer (`optimize-portfolio/route.ts`) -/

/-- The `Strategy` fields consumed by the optimizer; `apy` is the parsed
percent value of the APY string. -/
structure OptStrategy where
  id : String
  riskLevel : String
  apy : ℚ
deriving DecidableEq, Repr

/-- `riskLevelToVolatility` (lines 335–339).  The source indexes a
three-entry record; an unknown risk level would yield `undefined` (`NaN`
downstream) in JavaScript and is mapped to 0 here — the theorems that depend
on volatilities assume the three valid levels, which is what both strategy
feeds produce. -/
def riskLevelToVolatility (riskLevel : String) : ℚ :=
  if riskLevel == "low" then 1/20
  else if riskLevel == "medium" then 3/20
  else if riskLevel == "high" then 3/10
  else 0

/-- `riskToleranceParameter` (lines 342–346): `{low: 2, medium: 5, high: 10}[riskProfile] || 5`. -/
def riskToleranceParameter (riskProfile : String) : ℚ :=
  if riskProfile == "low" then 2
  else if riskProfile == "medium" then 5
  else if riskProfile == "high" then 10
  else 5

/-- Index-value enumeration (JavaScript's implicit array index in
`map((x, i) => ...)` and `for` loops), recursing structurally so concrete
runs reduce. -/
def enumFromIdx (n : Nat) : List α → List (Nat × α)
  | [] => []
  | a :: as => (n, a) :: enumFromIdx (n + 1) as

/-- Stable insertion used by `stableSortBy`: the new element is placed
before the first existing element strictly greater than it, hence after all
elements it compares equal to. -/
def stableInsert (le : α → α → Bool) (a : α) : List α → List α
  | [] => [a]
  | b :: bs => if le a b && !(le b a) then a :: b :: bs else b :: stableInsert le a bs

/-- Stable sort modelling `Array.prototype.sort` (which the ECMAScript
specification requires to be stable) for the total-preorder comparators the
optimizer uses; `le a b` means the comparator puts `a` at-or-before `b`. -/
def stableSortBy (le : α → α → Bool) (l : List α) : List α :=
  l.foldl (fun acc a => stableInsert le a acc) []

/-- `returns.map((ret, i) => ({ret, i})).sort((a, b) => b.ret - a.ret).map(item => item.i)`:
indices of the strategies ranked by descending return. -/
def returnRankings (returns : List ℚ) : List Nat :=
  (stableSortBy (fun x y => decide (y.2 ≤ x.2)) (enumFromIdx 0 returns)).map (fun p => p.1)

/-- `volatilities.map((vol, i) => ({vol, i})).sort((a, b) => a.vol - b.vol).map(item => item.i)`:
indices ranked by ascending volatility. -/
def volatilityRankings (volatilities : List ℚ) : List Nat :=
  (stableSortBy (fun x y => decide (x.2 ≤ y.2)) (enumFromIdx 0 volatilities)).map (fun p => p.1)

/-- In-place update `weights[idx] := f weights[idx]`; out-of-range indices
leave the list unchanged (the rankings are always in range). -/
def modifyIdx (f : ℚ → ℚ) : List ℚ → Nat → List ℚ
  | [], _ => []
  | x :: xs, 0 => f x :: xs
  | x :: xs, n + 1 => x :: modifyIdx f xs n

/-- The boost loop of `calculateOptimalWeights`:
`for i in 0..min(3, rankings.length): weights[rankings[i]] += shiftFactor * (0.3 - i*0.1)`. -/
def applyBoost (rankings : List Nat) (shiftFactor : ℚ) (weights : List ℚ) : List ℚ :=
  (enumFromIdx 0 (rankings.take 3)).foldl
    (fun ws p => modifyIdx (fun w => w + shiftFactor * (3/10 - (p.1 : ℚ) * (1/10))) ws p.2)
    weights

/-- `returns.map((ret, i) => ret / volatilities[i])` (pseudo-Sharpe, no
risk-free rate). -/
def sharpeRatios (returns volatilities : List ℚ) : List ℚ :=
  List.zipWith (· / ·) returns volatilities

/-- `sharpeRatios.map(sharpe => Math.max(0, sharpe))`. -/
def prelimWeights (returns volatilities : List ℚ) : List ℚ :=
  (sharpeRatios returns volatilities).map (fun sharpe => max 0 sharpe)

/-- `prelimWeights.reduce((a, b) => a + b, 0)` — the divisor of the
preliminary normalization, which the source divides by *unconditionally*
(`prelimWeights.map(w => w / sumPrelimWeights)`, line 397). -/
def sumPrelimWeights (returns volatilities : List ℚ) : ℚ :=
  (prelimWeights returns volatilities).sum

/-- The weights after preliminary normalization and the risk-tolerance
boost (lines 392–427). -/
def boostedWeights (returns volatilities : List ℚ) (riskTolerance : ℚ) : List ℚ :=
  let weights := (prelimWeights returns volatilities).map
    (fun w => w / sumPrelimWeights returns volatilities)
  if riskTolerance > 5 then
    applyBoost (returnRankings returns) ((riskTolerance - 5) / 10) weights
  else if riskTolerance < 5 then
    applyBoost (volatilityRankings volatilities) ((5 - riskTolerance) / 10) weights
  else
    weights

/-- The divisor of the post-boost normalization (lines 430–431), again
divided by unconditionally. -/
def sumBoostedWeights (returns volatilities : List ℚ) (riskTolerance : ℚ) : ℚ :=
  (boostedWeights returns volatilities riskTolerance).sum

/-- `calculateOptimalWeights` (lines 385–432). -/
def calculateOptimalWeights (returns volatilities : List ℚ) (riskTolerance : ℚ) : List ℚ :=
  (boostedWeights returns volatilities riskTolerance).map
    (fun w => w / sumBoostedWeights returns volatilities riskTolerance)

/-- The body of the low-profile constraint loop (lines 443–452): zero out
high-risk weights, halve medium-risk weights. -/
def lowProfileAdjust (w : ℚ) (s : OptStrategy) : ℚ :=
  if s.riskLevel == "high" then 0
  else if s.riskLevel == "medium" then w * (1/2)
  else w

/-- The low-profile constraint block (lines 443–452): applied when the
profile is `low`, identity otherwise. -/
def lowConstrained (weights : List ℚ) (strategies : List OptStrategy)
    (riskProfile : String) : List ℚ :=
  if riskProfile == "low" then List.zipWith lowProfileAdjust weights strategies
  else weights

/-- `totalHighRisk` of the medium-profile block (lines 456–461): the sum of
the weights sitting on high-risk strategies. -/
def totalHighRisk (adjusted : List ℚ) (strategies : List OptStrategy) : ℚ :=
  (List.zipWith (fun w s => if s.riskLevel == "high" then w else 0)
    adjusted strategies).sum

/-- The medium-profile cap (lines 455–472): when the aggregate high-risk
weight exceeds 20%, scale the high-risk weights down proportionally. -/
def mediumCap (adjusted : List ℚ) (strategies : List OptStrategy) : List ℚ :=
  if totalHighRisk adjusted strategies > 1/5 then
    List.zipWith
      (fun w s => if s.riskLevel == "high"
        then w * ((1/5) / totalHighRisk adjusted strategies) else w)
      adjusted strategies
  else adjusted

/-- The constraint phase of `adjustWeightsForRiskProfile` (lines 439–472),
before the final normalize-or-fallback: the low-profile block followed by
the medium-profile block, each firing only on its own profile. -/
def constrainWeights (weights : List ℚ) (strategies : List OptStrategy)
    (riskProfile : String) : List ℚ :=
  if riskProfile == "medium" then
    mediumCap (lowConstrained weights strategies riskProfile) strategies
  else lowConstrained weights strategies riskProfile

/-- `adjustWeightsForRiskProfile` (lines 434–482): normalize the constrained
weights when their sum is positive, otherwise fall back to the
pre-constraint weight vector. -/
def adjustWeightsForRiskProfile (weights : List ℚ) (strategies : List OptStrategy)
    (riskProfile : String) : List ℚ :=
  let adjustedWeights := constrainWeights weights strategies riskProfile
  let sumWeights := adjustedWeights.sum
  if sumWeights > 0 then adjustedWeights.map (fun w => w / sumWeights)
  else weights

/-- `strategies.map(s => parseFloat(s.apy) / 100)`. -/
def strategyReturns (strategies : List OptStrategy) : List ℚ :=
  strategies.map (fun s => s.apy / 100)

/-- `strategies.map(s => riskLevelToVolatility[s.riskLevel])`. -/
def strategyVolatilities (strategies : List OptStrategy) : List ℚ :=
  strategies.map (fun s => riskLevelToVolatility s.riskLevel)

/-- The weight vector handed to `adjustWeightsForRiskProfile` (line 353). -/
def preConstraintWeights (strategies : List OptStrategy) (riskProfile : String) : List ℚ :=
  calculateOptimalWeights (strategyReturns strategies) (strategyVolatilities strategies)
    (riskToleranceParameter riskProfile)

/-- The sum of the constrained weights — the quantity the zero-sum fallback
tests. -/
def constrainedSum (strategies : List OptStrategy) (riskProfile : String) : ℚ :=
  (constrainWeights (preConstraintWeights strategies riskProfile) strategies
    riskProfile).sum

/-- The final weight vector after the unguarded renormalization of
`optimizePortfolio` (lines 358–360). -/
def finalWeights (strategies : List OptStrategy) (riskProfile : String) : List ℚ :=
  let weights := adjustWeightsForRiskProfile (preConstraintWeights strategies riskProfile)
    strategies riskProfile
  weights.map (fun w => w / weights.sum)

/-- An allocation recommendation: the strategy with its
`recommendedAllocation.percent` and `.amount`. -/
structure Allocation where
  strategy : OptStrategy
  percent : ℚ
  amount : ℚ
deriving DecidableEq, Repr

structure OptimizedPortfolio where
  allocations : List Allocation
  expectedYield : ℚ
deriving DecidableEq, Repr

/-- The allocation list before the sub-0.5% filter (lines 366–376). -/
def rawAllocations (strategies : List OptStrategy) (riskProfile : String)
    (totalInvestment : ℚ) : List Allocation :=
  (strategies.zip (finalWeights strategies riskProfile)).map
    (fun p => { strategy := p.1, percent := p.2 * 100, amount := totalInvestment * p.2 })

/-- `optimizePortfolio` (lines 325–383): returned allocations are the raw
allocations with more than 0.5% allocation; expected yield is
`Σ weightᵢ·returnᵢ · 100`. -/
def optimizePortfolio (strategies : List OptStrategy) (riskProfile : String)
    (totalInvestment : ℚ) : OptimizedPortfolio :=
  { allocations :=
      (rawAllocations strategies riskProfile totalInvestment).filter
        (fun a => a.percent > 1/2)
    expectedYield :=
      (List.zipWith (· * ·) (finalWeights strategies riskProfile)
        (strategyReturns strategies)).sum * 100 }

/-- Sum of `allocationPercent` over a recommendation list. -/
def sumAllocationPercent (allocations : List Allocation) : ℚ :=
  (allocations.map (fun a => a.percent)).sum

/-! ### Optimizer invariants -/

lemma sum_map_div (l : List ℚ) (s : ℚ) :
    (l.map (fun w => w / s)).sum = l.sum / s := by
  induction l with
  | nil => simp
  | cons x xs ih => simp [ih, add_div]

lemma mem_map_div_nonneg {l : List ℚ} {s : ℚ} (h : ∀ x ∈ l, 0 ≤ x) (hs : 0 ≤ s) :
    ∀ x ∈ l.map (fun w => w / s), 0 ≤ x := by
  intro x hx
  obtain ⟨y, hy, rfl⟩ := List.mem_map.mp hx
  exact div_nonneg (h y hy) hs

lemma modifyIdx_nonneg {f : ℚ → ℚ} (hf : ∀ x, 0 ≤ x → 0 ≤ f x) :
    ∀ (l : List ℚ) (i : Nat), (∀ x ∈ l, 0 ≤ x) → ∀ x ∈ modifyIdx f l i, 0 ≤ x := by
  intro l
  induction l with
  | nil => intro i _ x hx; simp [modifyIdx] at hx
  | cons y ys ih =>
    intro i h x hx
    cases i with
    | zero =>
      simp only [modifyIdx, List.mem_cons] at hx
      rcases hx with rfl | hx
      · exact hf y (h y (List.mem_cons_self y ys))
      · exact h x (List.mem_cons_of_mem y hx)
    | succ n =>
      simp only [modifyIdx, List.mem_cons] at hx
      rcases hx with rfl | hx
      · exact h x (List.mem_cons_self x ys)
      · exact ih n (fun z hz => h z (List.mem_cons_of_mem y hz)) x hx

lemma modifyIdx_length (f : ℚ → ℚ) :
    ∀ (l : List ℚ) (i : Nat), (modifyIdx f l i).length = l.length := by
  intro l
  induction l with
  | nil => intro i; simp [modifyIdx]
  | cons y ys ih =>
    intro i
    cases i with
    | zero => simp [modifyIdx]
    | succ n => simp [modifyIdx, ih n]

lemma sum_le_modifyIdx_add {c : ℚ} (hc : 0 ≤ c) :
    ∀ (l : List ℚ) (i : Nat), l.sum ≤ (modifyIdx (fun w => w + c) l i).sum := by
  intro l
  induction l with
  | nil => intro i; simp [modifyIdx]
  | cons y ys ih =>
    intro i
    cases i with
    | zero =>
      simp only [modifyIdx, List.sum_cons]
      linarith
    | succ n =>
      simp only [modifyIdx, List.sum_cons]
      have := ih n
      linarith

lemma enumFromIdx_fst_lt {α : Type} :
    ∀ (l : List α) (n : Nat) (p : Nat × α), p ∈ enumFromIdx n l → p.1 < n + l.length := by
  intro l
  induction l with
  | nil => intro n p hp; simp [enumFromIdx] at hp
  | cons a as ih =>
    intro n p hp
    simp only [enumFromIdx, List.mem_cons] at hp
    rcases hp with rfl | hp
    · simp
    · have := ih (n + 1) p hp
      simp only [List.length_cons]
      omega

lemma boost_foldl_nonneg {sf : ℚ} (hsf : 0 ≤ sf) :
    ∀ (pairs : List (Nat × Nat)) (w : List ℚ),
      (∀ p ∈ pairs, p.1 < 3) → (∀ x ∈ w, 0 ≤ x) →
      ∀ x ∈ pairs.foldl
        (fun ws p => modifyIdx (fun v => v + sf * (3/10 - (p.1 : ℚ) * (1/10))) ws p.2) w,
        0 ≤ x := by
  intro pairs
  induction pairs with
  | nil => intro w _ hw; simpa using hw
  | cons p ps ih =>
    intro w hb hw
    simp only [List.foldl_cons]
    have hp3 : p.1 < 3 := hb p (List.mem_cons_self p ps)
    have hcpos : (0 : ℚ) ≤ sf * (3/10 - (p.1 : ℚ) * (1/10)) := by
      apply mul_nonneg hsf
      have : (p.1 : ℚ) ≤ 2 := by exact_mod_cast Nat.lt_succ_iff.mp hp3
      linarith
    exact ih _ (fun q hq => hb q (List.mem_cons_of_mem p hq))
      (modifyIdx_nonneg (fun x hx => by linarith) w p.2 hw)

lemma take3_enum_fst_lt (r : List Nat) : ∀ p ∈ enumFromIdx 0 (r.take 3), p.1 < 3 := by
  intro p hp
  have h1 := enumFromIdx_fst_lt (r.take 3) 0 p hp
  have h2 : (r.take 3).length ≤ 3 := by simpa using List.length_take_le 3 r
  omega

lemma applyBoost_nonneg {sf : ℚ} (hsf : 0 ≤ sf) (r : List Nat) (w : List ℚ)
    (hw : ∀ x ∈ w, 0 ≤ x) : ∀ x ∈ applyBoost r sf w, 0 ≤ x :=
  boost_foldl_nonneg hsf (enumFromIdx 0 (r.take 3)) w (take3_enum_fst_lt r) hw

lemma boost_foldl_length (sf : ℚ) :
    ∀ (pairs : List (Nat × Nat)) (w : List ℚ),
      (pairs.foldl
        (fun ws p => modifyIdx (fun v => v + sf * (3/10 - (p.1 : ℚ) * (1/10))) ws p.2)
        w).length = w.length := by
  intro pairs
  induction pairs with
  | nil => intro w; rfl
  | cons p ps ih =>
    intro w
    simp only [List.foldl_cons]
    rw [ih, modifyIdx_length]

lemma applyBoost_length (r : List Nat) (sf : ℚ) (w : List ℚ) :
    (applyBoost r sf w).length = w.length :=
  boost_foldl_length sf (enumFromIdx 0 (r.take 3)) w

lemma boost_foldl_sum_ge {sf : ℚ} (hsf : 0 ≤ sf) :
    ∀ (pairs : List (Nat × Nat)) (w : List ℚ), (∀ p ∈ pairs, p.1 < 3) →
      w.sum ≤ (pairs.foldl
        (fun ws p => modifyIdx (fun v => v + sf * (3/10 - (p.1 : ℚ) * (1/10))) ws p.2)
        w).sum := by
  intro pairs
  induction pairs with
  | nil => intro w _; simp
  | cons p ps ih =>
    intro w hb
    simp only [List.foldl_cons]
    have hp3 : p.1 < 3 := hb p (List.mem_cons_self p ps)
    have hcpos : (0 : ℚ) ≤ sf * (3/10 - (p.1 : ℚ) * (1/10)) := by
      apply mul_nonneg hsf
      have : (p.1 : ℚ) ≤ 2 := by exact_mod_cast Nat.lt_succ_iff.mp hp3
      linarith
    calc w.sum ≤ (modifyIdx (fun v => v + sf * (3/10 - (p.1 : ℚ) * (1/10))) w p.2).sum :=
          sum_le_modifyIdx_add hcpos w p.2
      _ ≤ _ := ih _ (fun q hq => hb q (List.mem_cons_of_mem p hq))

lemma applyBoost_sum_ge {sf : ℚ} (hsf : 0 ≤ sf) (r : List Nat) (w : List ℚ) :
    w.sum ≤ (applyBoost r sf w).sum :=
  boost_foldl_sum_ge hsf (enumFromIdx 0 (r.take 3)) w (take3_enum_fst_lt r)

lemma prelimWeights_nonneg (returns volatilities : List ℚ) :
    ∀ x ∈ prelimWeights returns volatilities, 0 ≤ x := by
  intro x hx
  obtain ⟨y, _, rfl⟩ := List.mem_map.mp hx
  exact le_max_left 0 y

lemma boostedWeights_nonneg (returns volatilities : List ℚ) (t : ℚ) :
    ∀ x ∈ boostedWeights returns volatilities t, 0 ≤ x := by
  have hw : ∀ x ∈ (prelimWeights returns volatilities).map
      (fun w => w / sumPrelimWeights returns volatilities), 0 ≤ x :=
    mem_map_div_nonneg (prelimWeights_nonneg returns volatilities)
      (List.sum_nonneg (prelimWeights_nonneg returns volatilities))
  unfold boostedWeights
  split
  · exact applyBoost_nonneg (by linarith) _ _ hw
  · split
    · exact applyBoost_nonneg (by linarith) _ _ hw
    · exact hw

lemma calculateOptimalWeights_nonneg (returns volatilities : List ℚ) (t : ℚ) :
    ∀ x ∈ calculateOptimalWeights returns volatilities t, 0 ≤ x :=
  mem_map_div_nonneg (boostedWeights_nonneg returns volatilities t)
    (List.sum_nonneg (boostedWeights_nonneg returns volatilities t))

lemma zipWith_strat_nonneg {f : ℚ → OptStrategy → ℚ}
    (hf : ∀ w s, 0 ≤ w → 0 ≤ f w s) :
    ∀ (ws : List ℚ) (ss : List OptStrategy), (∀ x ∈ ws, 0 ≤ x) →
      ∀ x ∈ List.zipWith f ws ss, 0 ≤ x := by
  intro ws
  induction ws with
  | nil => intro ss _ x hx; simp at hx
  | cons w ws' ih =>
    intro ss hw x hx
    cases ss with
    | nil => simp at hx
    | cons s ss' =>
      simp only [List.zipWith_cons_cons, List.mem_cons] at hx
      rcases hx with rfl | hx
      · exact hf w s (hw w (List.mem_cons_self w ws'))
      · exact ih ss' (fun z hz => hw z (List.mem_cons_of_mem w hz)) x hx

lemma lowConstrained_nonneg {weights : List ℚ} (strategies : List OptStrategy)
    (riskProfile : String) (hw : ∀ x ∈ weights, 0 ≤ x) :
    ∀ x ∈ lowConstrained weights strategies riskProfile, 0 ≤ x := by
  unfold lowConstrained
  split
  · refine zipWith_strat_nonneg ?_ weights strategies hw
    intro w s h0
    unfold lowProfileAdjust
    split
    · exact le_refl 0
    · split
      · linarith
      · exact h0
  · exact hw

lemma mediumCap_nonneg {adjusted : List ℚ} (strategies : List OptStrategy)
    (hadj : ∀ x ∈ adjusted, 0 ≤ x) :
    ∀ x ∈ mediumCap adjusted strategies, 0 ≤ x := by
  unfold mediumCap
  split
  · rename_i htot
    refine zipWith_strat_nonneg ?_ adjusted strategies hadj
    intro w s h0
    split
    · have h5 : (0 : ℚ) < 1/5 := by norm_num
      have hpos := lt_trans h5 htot
      positivity
    · exact h0
  · exact hadj

lemma constrainWeights_nonneg {weights : List ℚ} (strategies : List OptStrategy)
    (riskProfile : String) (hw : ∀ x ∈ weights, 0 ≤ x) :
    ∀ x ∈ constrainWeights weights strategies riskProfile, 0 ≤ x := by
  unfold constrainWeights
  split
  · exact mediumCap_nonneg strategies (lowConstrained_nonneg strategies riskProfile hw)
  · exact lowConstrained_nonneg strategies riskProfile hw

lemma adjustWeights_nonneg {weights : List ℚ} (strategies : List OptStrategy)
    (riskProfile : String) (hw : ∀ x ∈ weights, 0 ≤ x) :
    ∀ x ∈ adjustWeightsForRiskProfile weights strategies riskProfile, 0 ≤ x := by
  unfold adjustWeightsForRiskProfile
  dsimp only
  split
  · exact mem_map_div_nonneg (constrainWeights_nonneg strategies riskProfile hw)
      (List.sum_nonneg (constrainWeights_nonneg strategies riskProfile hw))
  · exact hw

lemma preConstraintWeights_nonneg (strategies : List OptStrategy) (riskProfile : String) :
    ∀ x ∈ preConstraintWeights strategies riskProfile, 0 ≤ x :=
  calculateOptimalWeights_nonneg _ _ _

lemma finalWeights_nonneg (strategies : List OptStrategy) (riskProfile : String) :
    ∀ x ∈ finalWeights strategies riskProfile, 0 ≤ x := by
  unfold finalWeights
  have h := adjustWeights_nonneg strategies riskProfile
    (preConstraintWeights_nonneg strategies riskProfile)
  exact mem_map_div_nonneg h (List.sum_nonneg h)

lemma lowConstrained_length (weights : List ℚ) (strategies : List OptStrategy)
    (riskProfile : String) (h : weights.length = strategies.length) :
    (lowConstrained weights strategies riskProfile).length = strategies.length := by
  unfold lowConstrained
  split
  · simp [h]
  · exact h

lemma mediumCap_length (adjusted : List ℚ) (strategies : List OptStrategy)
    (h : adjusted.length = strategies.length) :
    (mediumCap adjusted strategies).length = strategies.length := by
  unfold mediumCap
  split
  · simp [h]
  · exact h

lemma constrainWeights_length (weights : List ℚ) (strategies : List OptStrategy)
    (riskProfile : String) (h : weights.length = strategies.length) :
    (constrainWeights weights strategies riskProfile).length = strategies.length := by
  unfold constrainWeights
  split
  · exact mediumCap_length _ _ (lowConstrained_length _ _ _ h)
  · exact lowConstrained_length _ _ _ h

lemma adjustWeights_length (weights : List ℚ) (strategies : List OptStrategy)
    (riskProfile : String) (h : weights.length = strategies.length) :
    (adjustWeightsForRiskProfile weights strategies riskProfile).length
      = strategies.length := by
  unfold adjustWeightsForRiskProfile
  dsimp only
  split
  · simpa using constrainWeights_length weights strategies riskProfile h
  · exact h

lemma boostedWeights_length (returns volatilities : List ℚ) (t : ℚ) :
    (boostedWeights returns volatilities t).length
      = min returns.length volatilities.length := by
  unfold boostedWeights
  have hbase : ((prelimWeights returns volatilities).map
      (fun w => w / sumPrelimWeights returns volatilities)).length
      = min returns.length volatilities.length := by
    simp [prelimWeights, sharpeRatios]
  split
  · rw [applyBoost_length, hbase]
  · split
    · rw [applyBoost_length, hbase]
    · exact hbase

lemma preConstraintWeights_length (strategies : List OptStrategy) (riskProfile : String) :
    (preConstraintWeights strategies riskProfile).length = strategies.length := by
  unfold preConstraintWeights calculateOptimalWeights
  rw [List.length_map, boostedWeights_length]
  simp [strategyReturns, strategyVolatilities]

lemma finalWeights_length (strategies : List OptStrategy) (riskProfile : String) :
    (finalWeights strategies riskProfile).length = strategies.length := by
  unfold finalWeights
  rw [List.length_map]
  exact adjustWeights_length _ _ _ (preConstraintWeights_length strategies riskProfile)

lemma finalWeights_sum_cases (strategies : List OptStrategy) (riskProfile : String) :
    (finalWeights strategies riskProfile).sum = 0 ∨
      (finalWeights strategies riskProfile).sum = 1 := by
  unfold finalWeights
  rw [sum_map_div]
  by_cases h : (adjustWeightsForRiskProfile (preConstraintWeights strategies riskProfile)
      strategies riskProfile).sum = 0
  · left; rw [h]; simp
  · right; rw [div_self h]

lemma sum_map_mul_const (l : List ℚ) (c : ℚ) :
    (l.map (fun x => x * c)).sum = l.sum * c := by
  induction l with
  | nil => simp
  | cons x xs ih => simp [ih, add_mul]

lemma sumAllocationPercent_filter_le (p : Allocation → Bool) (l : List Allocation)
    (h : ∀ a ∈ l, 0 ≤ a.percent) :
    sumAllocationPercent (l.filter p) ≤ sumAllocationPercent l := by
  induction l with
  | nil => simp [sumAllocationPercent]
  | cons a l ih =>
    have ha := h a (List.mem_cons_self a l)
    have htail := ih (fun x hx => h x (List.mem_cons_of_mem a hx))
    simp only [sumAllocationPercent] at htail ⊢
    by_cases hp : p a
    · rw [List.filter_cons_of_pos hp]
      simp only [List.map_cons, List.sum_cons]
      linarith
    · rw [List.filter_cons_of_neg (by simpa using hp)]
      simp only [List.map_cons, List.sum_cons]
      linarith

lemma rawAllocations_percent_sum (strategies : List OptStrategy) (riskProfile : String)
    (total : ℚ) :
    sumAllocationPercent (rawAllocations strategies riskProfile total)
      = (finalWeights strategies riskProfile).sum * 100 := by
  unfold rawAllocations sumAllocationPercent
  rw [List.map_map]
  have hmap : ((fun a : Allocation => a.percent) ∘
      (fun p : OptStrategy × ℚ =>
        ({ strategy := p.1, percent := p.2 * 100, amount := total * p.2 } : Allocation)))
      = (fun x : ℚ => x * 100) ∘ Prod.snd := rfl
  rw [hmap, ← List.map_map, List.map_snd_zip]
  · exact sum_map_mul_const _ _
  · exact le_of_eq (finalWeights_length strategies riskProfile)

lemma rawAllocations_percent_nonneg (strategies : List OptStrategy) (riskProfile : String)
    (total : ℚ) :
    ∀ a ∈ rawAllocations strategies riskProfile total, 0 ≤ a.percent := by
  intro a ha
  obtain ⟨pr, hpr, rfl⟩ := List.mem_map.mp ha
  have h2 := (List.of_mem_zip hpr).2
  have := finalWeights_nonneg strategies riskProfile pr.2 h2
  show (0 : ℚ) ≤ pr.2 * 100
  positivity

lemma zip_lowConstrained_high_zero (g : ℚ → ℚ) (hg : g 0 = 0) :
    ∀ (ss : List OptStrategy) (ws : List ℚ),
      ∀ pr ∈ ss.zip ((List.zipWith lowProfileAdjust ws ss).map g),
        pr.1.riskLevel = "high" → pr.2 = 0 := by
  intro ss
  induction ss with
  | nil => intro ws pr hpr; simp at hpr
  | cons s ss' ih =>
    intro ws pr hpr hhigh
    cases ws with
    | nil => simp at hpr
    | cons w ws' =>
      simp only [List.zipWith_cons_cons, List.map_cons, List.zip_cons_cons,
        List.mem_cons] at hpr
      rcases hpr with rfl | hpr
      · simp only [] at hhigh ⊢
        have : lowProfileAdjust w s = 0 := by
          unfold lowProfileAdjust
          rw [if_pos (by simp [hhigh])]
        rw [this, hg]
      · exact ih ws' pr hpr hhigh

/-- C7, amended.  For every optimizer input the returned allocation percents
sum to at most 100, with equality when the strategy list is nonempty and no
sub-0.5% entry is dropped; and for `riskProfile = low` no returned
recommendation is high-risk *provided* the low-profile constraints leave a
positive total weight.  (When they zero out every weight — e.g. every
strategy is high-risk — the fallback reinstates the pre-constraint weights
and a high-risk recommendation can be returned, see
`optimizer_low_profile_returns_high_risk`.) -/
theorem optimizer_allocation_bounds (strategies : List OptStrategy)
    (riskProfile : String) (total : ℚ) :
    sumAllocationPercent (optimizePortfolio strategies riskProfile total).allocations
      ≤ 100 ∧
    (strategies ≠ [] →
      (∀ a ∈ rawAllocations strategies riskProfile total, a.percent > 1/2) →
      sumAllocationPercent (optimizePortfolio strategies riskProfile total).allocations
        = 100) ∧
    (riskProfile = "low" → 0 < constrainedSum strategies "low" →
      ∀ a ∈ (optimizePortfolio strategies riskProfile total).allocations,
        a.strategy.riskLevel ≠ "high") := by
  have hraw_sum := rawAllocations_percent_sum strategies riskProfile total
  have hraw_nonneg := rawAllocations_percent_nonneg strategies riskProfile total
  have hcases := finalWeights_sum_cases strategies riskProfile
  refine ⟨?_, ?_, ?_⟩
  · calc sumAllocationPercent (optimizePortfolio strategies riskProfile total).allocations
        ≤ sumAllocationPercent (rawAllocations strategies riskProfile total) :=
          sumAllocationPercent_filter_le _ _ hraw_nonneg
      _ = (finalWeights strategies riskProfile).sum * 100 := hraw_sum
      _ ≤ 100 := by rcases hcases with h | h <;> rw [h] <;> norm_num
  · intro hne hall
    have hfilter : (rawAllocations strategies riskProfile total).filter
        (fun a => a.percent > 1/2) = rawAllocations strategies riskProfile total :=
      List.filter_eq_self.mpr (fun a ha => by simpa using hall a ha)
    show sumAllocationPercent ((rawAllocations strategies riskProfile total).filter _) = 100
    rw [hfilter, hraw_sum]
    rcases hcases with h | h
    · exfalso
      have hlen : (rawAllocations strategies riskProfile total).length
          = strategies.length := by
        unfold rawAllocations
        rw [List.length_map, List.length_zip, finalWeights_length]
        omega
      have hne' : rawAllocations strategies riskProfile total ≠ [] := by
        intro habs
        apply hne
        rw [habs] at hlen
        exact List.length_eq_zero.mp hlen.symm
      obtain ⟨a, ha⟩ := List.exists_mem_of_ne_nil _ hne'
      obtain ⟨pr, hpr, rfl⟩ := List.mem_map.mp ha
      have hz : pr.2 = 0 :=
        List.all_zero_of_le_zero_le_of_sum_eq_zero
          (finalWeights_nonneg strategies riskProfile) h (List.of_mem_zip hpr).2
      have := hall _ ha
      simp only [hz] at this
      norm_num at this
    · rw [h]; norm_num
  · intro hlow hsum a ha
    subst hlow
    have hmem := List.mem_filter.mp ha
    obtain ⟨pr, hpr, rfl⟩ := List.mem_map.mp hmem.1
    intro hhigh
    have hcw : constrainWeights (preConstraintWeights strategies "low") strategies "low"
        = List.zipWith lowProfileAdjust (preConstraintWeights strategies "low")
          strategies := rfl
    have hsum' : (0 : ℚ) < (List.zipWith lowProfileAdjust
        (preConstraintWeights strategies "low") strategies).sum := by
      have : constrainedSum strategies "low"
          = (List.zipWith lowProfileAdjust (preConstraintWeights strategies "low")
            strategies).sum := by
        unfold constrainedSum
        rw [hcw]
      rw [this] at hsum
      exact hsum
    have hw2 : adjustWeightsForRiskProfile (preConstraintWeights strategies "low")
        strategies "low"
        = (List.zipWith lowProfileAdjust (preConstraintWeights strategies "low")
            strategies).map
          (fun w => w / (List.zipWith lowProfileAdjust
            (preConstraintWeights strategies "low") strategies).sum) := by
      unfold adjustWeightsForRiskProfile
      rw [hcw]
      dsimp only
      rw [if_pos hsum']
    have hfw : finalWeights strategies "low"
        = (List.zipWith lowProfileAdjust (preConstraintWeights strategies "low")
            strategies).map
          ((fun w => w / (adjustWeightsForRiskProfile
              (preConstraintWeights strategies "low") strategies "low").sum) ∘
            (fun w => w / (List.zipWith lowProfileAdjust
              (preConstraintWeights strategies "low") strategies).sum)) := by
      unfold finalWeights
      rw [hw2, List.map_map]
    have hz : pr.2 = 0 := by
      have := zip_lowConstrained_high_zero
        ((fun w => w / (adjustWeightsForRiskProfile
            (preConstraintWeights strategies "low") strategies "low").sum) ∘
          (fun w => w / (List.zipWith lowProfileAdjust
            (preConstraintWeights strategies "low") strategies).sum))
        (by simp) strategies (preConstraintWeights strategies "low")
      apply this pr _ hhigh
      rw [← hfw]
      exact hpr
    have hgt := hmem.2
    simp only [hz] at hgt
    norm_num at hgt


/-- The all-high-risk single-strategy input used as the C7 counterexample. -/
def forgeStrategy : OptStrategy :=
  { id := "forge-gno-eth", riskLevel := "high", apy := 30 }

/-- A single low-risk strategy used for concrete optimizer runs. -/
def lowRiskStrategy : OptStrategy :=
  { id := "agave-xdai", riskLevel := "low", apy := 5 }

/-- C7, counterexample.  With `riskProfile = low` and a strategy set whose
only member is high-risk, the low-profile constraint zeroes every weight, the
zero-sum fallback (line 481) reinstates the pre-constraint weights, and the
optimizer returns the high-risk strategy at a 100% allocation — under a low
risk profile a returned recommendation *can* have `riskLevel = high`,
contradicting the claim's second conjunct. -/
theorem optimizer_low_profile_returns_high_risk :
    optimizePortfolio [forgeStrategy] "low" 1000 =
      { allocations := [{ strategy := forgeStrategy, percent := 100, amount := 1000 }]
        expectedYield := 30 } ∧
    forgeStrategy.riskLevel = "high" := by
  have hret : strategyReturns [forgeStrategy] = [30/100] := rfl
  have hvols : strategyVolatilities [forgeStrategy] = [3/10] := rfl
  have htol : riskToleranceParameter "low" = 2 := rfl
  have hlpa : ∀ w, lowProfileAdjust w forgeStrategy = 0 := fun _ => rfl
  have hcw : ∀ (ws : List ℚ) (ss : List OptStrategy),
      constrainWeights ws ss "low" = List.zipWith lowProfileAdjust ws ss := fun _ _ => rfl
  refine ⟨?_, rfl⟩
  norm_num [optimizePortfolio, rawAllocations, finalWeights, adjustWeightsForRiskProfile,
    hcw, hlpa, hret, hvols, htol,
    preConstraintWeights, calculateOptimalWeights, boostedWeights, sumBoostedWeights,
    sumPrelimWeights, prelimWeights, sharpeRatios, applyBoost, modifyIdx, returnRankings,
    volatilityRankings, stableSortBy, stableInsert, enumFromIdx, sumAllocationPercent]

lemma lowRisk_raw_allocations :
    rawAllocations [lowRiskStrategy] "low" 1000 =
      [{ strategy := lowRiskStrategy, percent := 100, amount := 1000 }] := by
  have hret : strategyReturns [lowRiskStrategy] = [5/100] := rfl
  have hvols : strategyVolatilities [lowRiskStrategy] = [1/20] := rfl
  have htol : riskToleranceParameter "low" = 2 := rfl
  have hlpa : ∀ w, lowProfileAdjust w lowRiskStrategy = w := fun _ => rfl
  have hcw : ∀ (ws : List ℚ) (ss : List OptStrategy),
      constrainWeights ws ss "low" = List.zipWith lowProfileAdjust ws ss := fun _ _ => rfl
  norm_num [rawAllocations, finalWeights, adjustWeightsForRiskProfile,
    hcw, hlpa, hret, hvols, htol,
    preConstraintWeights, calculateOptimalWeights, boostedWeights, sumBoostedWeights,
    sumPrelimWeights, prelimWeights, sharpeRatios, applyBoost, modifyIdx, returnRankings,
    volatilityRankings, stableSortBy, stableInsert, enumFromIdx]

lemma lowRisk_constrainedSum : (0 : ℚ) < constrainedSum [lowRiskStrategy] "low" := by
  have hret : strategyReturns [lowRiskStrategy] = [5/100] := rfl
  have hvols : strategyVolatilities [lowRiskStrategy] = [1/20] := rfl
  have htol : riskToleranceParameter "low" = 2 := rfl
  have hlpa : ∀ w, lowProfileAdjust w lowRiskStrategy = w := fun _ => rfl
  have hcw : ∀ (ws : List ℚ) (ss : List OptStrategy),
      constrainWeights ws ss "low" = List.zipWith lowProfileAdjust ws ss := fun _ _ => rfl
  norm_num [constrainedSum, hcw, hlpa, hret, hvols, htol,
    preConstraintWeights, calculateOptimalWeights, boostedWeights, sumBoostedWeights,
    sumPrelimWeights, prelimWeights, sharpeRatios, applyBoost, modifyIdx, returnRankings,
    volatilityRankings, stableSortBy, stableInsert, enumFromIdx]

/-- Witness for `optimizer_allocation_bounds`: a single low-risk 5%-APY
strategy under the low profile — nothing is dropped, the percents sum to
exactly 100 and no high-risk recommendation appears. -/
theorem optimizer_allocation_bounds_witness :
    sumAllocationPercent (optimizePortfolio [lowRiskStrategy] "low" 1000).allocations
      ≤ 100 ∧
    sumAllocationPercent (optimizePortfolio [lowRiskStrategy] "low" 1000).allocations
      = 100 ∧
    (∀ a ∈ (optimizePortfolio [lowRiskStrategy] "low" 1000).allocations,
      a.strategy.riskLevel ≠ "high") := by
  have h := optimizer_allocation_bounds [lowRiskStrategy] "low" 1000
  refine ⟨h.1, h.2.1 (by simp) ?_, h.2.2 rfl lowRisk_constrainedSum⟩
  intro a ha
  rw [lowRisk_raw_allocations] at ha
  simp only [List.mem_singleton] at ha
  subst ha
  norm_num

lemma zipWith_lowProfileAdjust_all_high_sum :
    ∀ (ss : List OptStrategy) (ws : List ℚ), (∀ s ∈ ss, s.riskLevel = "high") →
      (List.zipWith lowProfileAdjust ws ss).sum = 0 := by
  intro ss
  induction ss with
  | nil => intro ws _; simp
  | cons s ss' ih =>
    intro ws hss
    cases ws with
    | nil => simp
    | cons w ws' =>
      have hs : s.riskLevel = "high" := hss s (List.mem_cons_self s ss')
      have hz : lowProfileAdjust w s = 0 := by
        unfold lowProfileAdjust
        rw [if_pos (by simp [hs])]
      simp only [List.zipWith_cons_cons, List.sum_cons, hz,
        ih ws' (fun x hx => hss x (List.mem_cons_of_mem s hx))]
      norm_num

lemma prelimWeights_eq_map (ss : List OptStrategy) :
    prelimWeights (strategyReturns ss) (strategyVolatilities ss)
      = ss.map (fun s => max 0 (s.apy / 100 / riskLevelToVolatility s.riskLevel)) := by
  induction ss with
  | nil => rfl
  | cons s ss' ih =>
    simp only [prelimWeights, sharpeRatios, strategyReturns, strategyVolatilities,
      List.map_cons, List.zipWith_cons_cons] at ih ⊢
    rw [ih]

lemma riskLevelToVolatility_pos {rl : String}
    (h : rl = "low" ∨ rl = "medium" ∨ rl = "high") :
    0 < riskLevelToVolatility rl := by
  rcases h with rfl | rfl | rfl
  · rw [show riskLevelToVolatility "low" = 1/20 from rfl]; norm_num
  · rw [show riskLevelToVolatility "medium" = 3/20 from rfl]; norm_num
  · rw [show riskLevelToVolatility "high" = 3/10 from rfl]; norm_num

/-- C8, amended.  The zero-sum fallback holds: when the low-profile
constraints zero out every weight (e.g. every strategy is high-risk) the
adjustment returns the pre-constraint weight vector, not an empty
allocation.  The post-boost normalization and the final renormalization
never divide by a zero sum when at least one strategy has positive APY (the
final divisor is then exactly 1); but the preliminary Sharpe-weight
normalization *does* divide by a zero sum whenever the nonempty strategy set
has no positive-APY member — see
`optimizer_prelim_normalization_divides_by_zero`. -/
theorem optimizer_zero_sum_fallback_and_divisors :
    (∀ (weights : List ℚ) (strategies : List OptStrategy),
      (∀ s ∈ strategies, s.riskLevel = "high") →
      adjustWeightsForRiskProfile weights strategies "low" = weights) ∧
    (∀ (strategies : List OptStrategy) (riskProfile : String),
      (∀ s ∈ strategies,
        s.riskLevel = "low" ∨ s.riskLevel = "medium" ∨ s.riskLevel = "high") →
      (∃ s ∈ strategies, 0 < s.apy) →
      0 < sumPrelimWeights (strategyReturns strategies) (strategyVolatilities strategies) ∧
      0 < sumBoostedWeights (strategyReturns strategies) (strategyVolatilities strategies)
          (riskToleranceParameter riskProfile) ∧
      (adjustWeightsForRiskProfile (preConstraintWeights strategies riskProfile)
          strategies riskProfile).sum = 1) := by
  constructor
  · intro weights strategies hss
    unfold adjustWeightsForRiskProfile
    dsimp only
    have hcw : constrainWeights weights strategies "low"
        = List.zipWith lowProfileAdjust weights strategies := rfl
    rw [hcw, zipWith_lowProfileAdjust_all_high_sum strategies weights hss]
    norm_num
  · intro strategies riskProfile hvalid hpos
    obtain ⟨s, hs, hapy⟩ := hpos
    have hprelim_nonneg := prelimWeights_nonneg (strategyReturns strategies)
      (strategyVolatilities strategies)
    have hP : 0 < sumPrelimWeights (strategyReturns strategies)
        (strategyVolatilities strategies) := by
      have hvol := riskLevelToVolatility_pos (hvalid s hs)
      have hxpos : 0 < max 0 (s.apy / 100 / riskLevelToVolatility s.riskLevel) := by
        have : 0 < s.apy / 100 / riskLevelToVolatility s.riskLevel :=
          div_pos (by linarith) hvol
        exact lt_max_of_lt_right this
      have hxmem : max 0 (s.apy / 100 / riskLevelToVolatility s.riskLevel)
          ∈ prelimWeights (strategyReturns strategies) (strategyVolatilities strategies) := by
        rw [prelimWeights_eq_map]
        exact List.mem_map_of_mem _ hs
      exact lt_of_lt_of_le hxpos
        (List.single_le_sum hprelim_nonneg _ hxmem)
    have hbase_sum : ((prelimWeights (strategyReturns strategies)
        (strategyVolatilities strategies)).map
        (fun w => w / sumPrelimWeights (strategyReturns strategies)
          (strategyVolatilities strategies))).sum = 1 := by
      rw [sum_map_div]
      exact div_self (ne_of_gt hP)
    have hB : 0 < sumBoostedWeights (strategyReturns strategies)
        (strategyVolatilities strategies) (riskToleranceParameter riskProfile) := by
      unfold sumBoostedWeights boostedWeights
      split
      · rename_i ht
        have := @applyBoost_sum_ge ((riskToleranceParameter riskProfile - 5) / 10)
          (by linarith) (returnRankings (strategyReturns strategies))
          ((prelimWeights (strategyReturns strategies)
            (strategyVolatilities strategies)).map
            (fun w => w / sumPrelimWeights (strategyReturns strategies)
              (strategyVolatilities strategies)))
        rw [hbase_sum] at this
        linarith
      · split
        · rename_i ht
          have := @applyBoost_sum_ge ((5 - riskToleranceParameter riskProfile) / 10)
            (by linarith) (volatilityRankings (strategyVolatilities strategies))
            ((prelimWeights (strategyReturns strategies)
              (strategyVolatilities strategies)).map
              (fun w => w / sumPrelimWeights (strategyReturns strategies)
                (strategyVolatilities strategies)))
          rw [hbase_sum] at this
          linarith
        · rw [hbase_sum]; norm_num
    refine ⟨hP, hB, ?_⟩
    have hpre_sum : (preConstraintWeights strategies riskProfile).sum = 1 := by
      unfold preConstraintWeights calculateOptimalWeights
      rw [sum_map_div]
      exact div_self (ne_of_gt hB)
    unfold adjustWeightsForRiskProfile
    dsimp only
    split
    · rename_i hc
      rw [sum_map_div]
      exact div_self (ne_of_gt hc)
    · exact hpre_sum

/-- Witness for `optimizer_zero_sum_fallback_and_divisors`: a concrete
all-high-risk input for the fallback conjunct and a concrete positive-APY
input for the divisor conjuncts. -/
theorem optimizer_zero_sum_fallback_and_divisors_witness :
    adjustWeightsForRiskProfile [1] [forgeStrategy] "low" = [1] ∧
    (0 < sumPrelimWeights (strategyReturns [lowRiskStrategy])
        (strategyVolatilities [lowRiskStrategy]) ∧
      0 < sumBoostedWeights (strategyReturns [lowRiskStrategy])
        (strategyVolatilities [lowRiskStrategy]) (riskToleranceParameter "low") ∧
      (adjustWeightsForRiskProfile (preConstraintWeights [lowRiskStrategy] "low")
        [lowRiskStrategy] "low").sum = 1) := by
  constructor
  · exact optimizer_zero_sum_fallback_and_divisors.1 [1] [forgeStrategy]
      (by intro s hs; simp only [List.mem_singleton] at hs; subst hs; rfl)
  · exact optimizer_zero_sum_fallback_and_divisors.2 [lowRiskStrategy] "low"
      (by intro s hs; simp only [List.mem_singleton] at hs; subst hs; left; rfl)
      ⟨lowRiskStrategy, List.mem_singleton_self _, by norm_num [lowRiskStrategy]⟩

/-- C8, counterexample.  On a nonempty strategy set with no positive APY —
here the single zero-APY strategy — every pseudo-Sharpe weight is zero, so
`sumPrelimWeights` is 0 while the source still executes
`prelimWeights.map(w => w / sumPrelimWeights)` (line 397): the preliminary
normalization divides by a zero sum, refuting the claim's "never divides by
a zero sum for any input strategy set". -/
theorem optimizer_prelim_normalization_divides_by_zero :
    sumPrelimWeights (strategyReturns [{ id := "zero", riskLevel := "low", apy := 0 }])
        (strategyVolatilities [{ id := "zero", riskLevel := "low", apy := 0 }]) = 0 ∧
    prelimWeights (strategyReturns [{ id := "zero", riskLevel := "low", apy := 0 }])
        (strategyVolatilities [{ id := "zero", riskLevel := "low", apy := 0 }]) ≠ [] := by
  constructor
  · norm_num [sumPrelimWeights, prelimWeights, sharpeRatios, strategyReturns,
      strategyVolatilities]
  · norm_num [prelimWeights, sharpeRatios, strategyReturns, strategyVolatilities]

/-! ## Claims C5, C6, C9 — `get-strategies` (cache, filters, pagination, fallback) -/

namespace GetStrategies

/-- JavaScript truthiness of a query parameter: present and nonempty. -/
def jsTruthy (o : Option String) : Bool :=
  match o with
  | some s => !(s == "")
  | none => false

/-- The string value of a parameter (only read when `jsTruthy`). -/
def paramVal (o : Option String) : String := o.getD ""

/-- `x || d` on a query parameter, as used in the cache-key template. -/
def orDefault (o : Option String) (d : String) : String :=
  match o with
  | some s => if s = "" then d else s
  | none => d

/-- Decimal value of a digit list. -/
def digitsVal (cs : List Char) : Nat :=
  cs.foldl (fun n c => n * 10 + (c.toNat - 48)) 0

/-- `Number.parseFloat` on an unsigned decimal: longest digit prefix,
optionally followed by a fractional digit run; trailing garbage is ignored,
a string with no leading digit parses to `none` (`NaN`).  Exponent notation
is not modelled — the route only ever receives plain decimals. -/
def parseDecimal (cs : List Char) : Option ℚ :=
  let intPart := cs.takeWhile (fun c => c.isDigit)
  let rest := cs.drop intPart.length
  if intPart = [] then none
  else
    let intVal : ℚ := (digitsVal intPart : ℚ)
    match rest with
    | '.' :: frac =>
      let fracDigits := frac.takeWhile (fun c => c.isDigit)
      some (intVal + (digitsVal fracDigits : ℚ) / (10 : ℚ) ^ fracDigits.length)
    | _ => some intVal

/-- `Number.parseFloat`, with sign; `none` is `NaN`, and every comparison
against `none` is `false`, as in JavaScript. -/
def parseFloatQ (s : String) : Option ℚ :=
  match s.data with
  | '-' :: rest => (parseDecimal rest).map (fun q => -q)
  | cs => parseDecimal cs

/-- `String.prototype.includes`. -/
def jsIncludes (s sub : String) : Bool :=
  sub == "" || (s.splitOn sub).length > 1

/-- The `portfolioMatch` annotation attached by `analyzePortfolioStrategies`. -/
structure PMatch where
  matchingTokens : List String
  matchScore : ℚ
  recommendationReason : String
deriving DecidableEq, Repr

/-- The `EnhancedStrategy` fields read by the `get-strategies` pipeline;
`apy` holds the parsed value of the percentage string and `apyMean30d`,
`exposure`, `predictedClass` (of `predictions`), `underlyingTokens` are the
optional feed fields. -/
structure GStrategy where
  id : String
  asset : String
  apy : ℚ
  riskLevel : String
  apyMean30d : Option ℚ
  exposure : Option String
  predictedClass : Option String
  underlyingTokens : Option (List String)
  portfolioMatch : Option PMatch
deriving DecidableEq, Repr

/-- A wallet balance entry as returned by the balance provider. -/
structure WalletBalance where
  symbol : String
  chainId : Nat
  usdValue : ℚ
deriving DecidableEq, Repr

/-- `calculateMatchScore` (lines 421–457): 10 per matching token, a
risk-level bonus, an APY bonus, and the portfolio share of the matching
tokens capped at 50. -/
def calculateMatchScore (strategy : GStrategy) (matchingTokens : List String)
    (portfolio : List WalletBalance) : ℚ :=
  let base := (matchingTokens.length : ℚ) * 10
  let riskBonus : ℚ :=
    if strategy.riskLevel == "low" then 15
    else if strategy.riskLevel == "medium" then 10
    else 5
  let apyBonus : ℚ :=
    if strategy.apy > 20 then 15
    else if strategy.apy > 10 then 10
    else if strategy.apy > 5 then 5
    else 0
  let totalPortfolioValue := (portfolio.map (fun t => t.usdValue)).sum
  let matchingValue :=
    ((portfolio.filter (fun t => matchingTokens.contains t.symbol)).map
      (fun t => t.usdValue)).sum
  base + riskBonus + apyBonus +
    (if totalPortfolioValue > 0
     then min (matchingValue / totalPortfolioValue * 100) 50
     else 0)

/-- `generateRecommendation` (lines 460–466); with an empty match list the
source would interpolate JavaScript's `undefined`. -/
def generateRecommendation (matchingTokens : List String) : String :=
  if matchingTokens.length > 1 then
    "This strategy uses multiple tokens from your portfolio (" ++
      String.intercalate ", " matchingTokens ++ ")."
  else
    "This strategy uses " ++ matchingTokens.headD "undefined" ++
      " which is in your portfolio."

/-- `analyzePortfolioStrategies` (lines 385–418): collect the strategy's
asset and underlying tokens that appear (case-insensitively) among the
wallet's symbols and attach a `portfolioMatch` when at least one matches. -/
def analyzePortfolioStrategies (strategies : List GStrategy)
    (portfolio : List WalletBalance) : List GStrategy :=
  let portfolioTokens := portfolio.map (fun item => jsToLower item.symbol)
  strategies.map (fun strategy =>
    let assetMatches :=
      if portfolioTokens.contains (jsToLower strategy.asset) then [strategy.asset]
      else []
    let tokenMatches :=
      match strategy.underlyingTokens with
      | some tokens => tokens.filter (fun t => portfolioTokens.contains (jsToLower t))
      | none => []
    let matchingTokens := assetMatches ++ tokenMatches
    if matchingTokens.length > 0 then
      let pm : PMatch :=
        { matchingTokens := matchingTokens
          matchScore := calculateMatchScore strategy matchingTokens portfolio
          recommendationReason := generateRecommendation matchingTokens }
      { strategy with portfolioMatch := some pm }
    else strategy)

/-- The query parameters of `GET /api/pilot/get-strategies`.  `limit` and
`offset` are the parsed integers (defaults 50 and 0). -/
structure QueryParams where
  riskLevel : Option String := none
  minApy : Option String := none
  maxApy : Option String := none
  source : Option String := none
  protocol : Option String := none
  walletAddress : Option String := none
  minApyMean30d : Option String := none
  maxApyMean30d : Option String := none
  asset : Option String := none
  exposure : Option String := none
  predictedClass : Option String := none
  limit : Nat := 50
  offset : Nat := 0
  skipCache : Bool := false
deriving DecidableEq, Repr

/-- The eleven `${...}` segments of the cache-key template literal (line
169), in source order.  `limit`, `offset` and `skipCache` are *not* part of
the key. -/
def cacheKeySegs (p : QueryParams) : List String :=
  [orDefault p.riskLevel "all", orDefault p.minApy "0", orDefault p.maxApy "max",
   orDefault p.source "all", orDefault p.protocol "all",
   orDefault p.walletAddress "none", orDefault p.minApyMean30d "0",
   orDefault p.maxApyMean30d "max", orDefault p.asset "all",
   orDefault p.exposure "all", orDefault p.predictedClass "all"]

/-- Join segments with `:` separators, as the template literal does. -/
def joinColon : List String → String
  | [] => ""
  | [s] => s
  | s :: rest@(_ :: _) => s ++ ":" ++ joinColon rest

def cacheKey (p : QueryParams) : String :=
  "strategies:" ++ joinColon (cacheKeySegs p)

/-- One `StrategiesCache` entry: the stored list with its expiry instant. -/
structure CacheEntry where
  data : List GStrategy
  expiry : Nat
deriving DecidableEq, Repr

abbrev Cache := List (String × CacheEntry)

/-- 5 minutes in milliseconds. -/
def DEFAULT_TTL : Nat := 5 * 60 * 1000

/-- `StrategiesCache.set` (lines 36–41): overwrite the key with expiry
`now + ttl`. -/
def cacheSet (c : Cache) (key : String) (data : List GStrategy) (now : Nat)
    (ttl : Nat := DEFAULT_TTL) : Cache :=
  (key, { data := data, expiry := now + ttl }) :: c.filter (fun q => !(q.1 == key))

/-- `StrategiesCache.get` (lines 43–54): absent keys and expired entries
yield `none`; an expired entry is deleted on the read. -/
def cacheGet (c : Cache) (key : String) (now : Nat) :
    Option (List GStrategy) × Cache :=
  match c.lookup key with
  | none => (none, c)
  | some entry =>
    if now > entry.expiry then (none, c.filter (fun q => !(q.1 == key)))
    else (some entry.data, c)

/-- `getDefiLlamaStrategies`: a failed fetch is caught and degrades to the
empty list; a successful fetch carries the already-normalized strategies. -/
def getDefiLlamaStrategies (fetchResult : Except Unit (List GStrategy)) :
    List GStrategy :=
  match fetchResult with
  | Except.ok l => l
  | Except.error _ => []

/-- `getGnosisStrategies` of the canonical route (lines 303–312): only the
DeFiLlama feed is consulted, whatever `source` says, and its own catch can
never fire because `getDefiLlamaStrategies` already catches. -/
def getGnosisStrategies (fetchResult : Except Unit (List GStrategy)) :
    List GStrategy :=
  getDefiLlamaStrategies fetchResult

/-- `x >= parsed` with NaN-propagating semantics. -/
def geParsed (x : ℚ) (p : Option ℚ) : Bool :=
  match p with
  | some m => decide (m ≤ x)
  | none => false

/-- `x <= parsed` with NaN-propagating semantics. -/
def leParsed (x : ℚ) (p : Option ℚ) : Bool :=
  match p with
  | some m => decide (x ≤ m)
  | none => false

/-- The filter chain of the route (lines 204–260), in source order. -/
def applyFilters (p : QueryParams) (strategies : List GStrategy) : List GStrategy :=
  let s1 :=
    if jsTruthy p.riskLevel && !(paramVal p.riskLevel == "all") then
      strategies.filter (fun s => s.riskLevel == paramVal p.riskLevel)
    else strategies
  let s2 :=
    if jsTruthy p.minApy then
      s1.filter (fun s => geParsed s.apy (parseFloatQ (paramVal p.minApy)))
    else s1
  let s3 :=
    if jsTruthy p.maxApy then
      s2.filter (fun s => leParsed s.apy (parseFloatQ (paramVal p.maxApy)))
    else s2
  let s4 :=
    if jsTruthy p.minApyMean30d then
      s3.filter (fun s =>
        match s.apyMean30d with
        | some m => geParsed m (parseFloatQ (paramVal p.minApyMean30d))
        | none => false)
    else s3
  let s5 :=
    if jsTruthy p.maxApyMean30d then
      s4.filter (fun s =>
        match s.apyMean30d with
        | some m => leParsed m (parseFloatQ (paramVal p.maxApyMean30d))
        | none => false)
    else s4
  let s6 :=
    if jsTruthy p.asset then
      s5.filter (fun s =>
        jsIncludes (jsToLower s.asset) (jsToLower (paramVal p.asset)) ||
        (match s.underlyingTokens with
         | some tokens => tokens.any
             (fun t => jsIncludes (jsToLower t) (jsToLower (paramVal p.asset)))
         | none => false))
    else s5
  let s7 :=
    if jsTruthy p.exposure then
      s6.filter (fun s =>
        match s.exposure with
        | some e => jsToLower e == jsToLower (paramVal p.exposure)
        | none => false)
    else s6
  let s8 :=
    if jsTruthy p.predictedClass then
      s7.filter (fun s =>
        match s.predictedClass with
        | some pc => jsIncludes (jsToLower pc) (jsToLower (paramVal p.predictedClass))
        | none => false)
    else s7
  s8

/-- The comparator of the wallet-aware sort (lines 264–275): matched
strategies first by descending match score, then unmatched by descending
APY. -/
def walletLe (a b : GStrategy) : Bool :=
  match a.portfolioMatch, b.portfolioMatch with
  | some x, some y => decide (y.matchScore ≤ x.matchScore)
  | some _, none => true
  | none, some _ => false
  | none, none => decide (b.apy ≤ a.apy)

/-- The default descending-APY comparator (lines 278–280). -/
def apyDescLe (a b : GStrategy) : Bool := decide (b.apy ≤ a.apy)

/-- The annotated, filtered and sorted list the route caches and slices:
portfolio annotation (balance failures are caught and skipped), the filter
chain, then the sort selected by the presence of a wallet address. -/
def fullPipeline (p : QueryParams) (fetched : List GStrategy)
    (balances : Except Unit (List WalletBalance)) : List GStrategy :=
  let annotated :=
    if jsTruthy p.walletAddress then
      match balances with
      | Except.ok bs =>
        analyzePortfolioStrategies fetched (bs.filter (fun t => t.chainId == 100))
      | Except.error _ => fetched
    else fetched
  let filtered := applyFilters p annotated
  if jsTruthy p.walletAddress then stableSortBy walletLe filtered
  else stableSortBy apyDescLe filtered

/-- The JSON body of a `get-strategies` response (plus the HTTP status).
There is no field marking the data source: a fallback/failure response is
shaped exactly like a live one. -/
structure GetResponse where
  status : Nat
  strategies : List GStrategy
  total : Nat
deriving DecidableEq, Repr

/-- The route's `GET` handler (lines 150–300) over explicit cache state:
cache consultation (unless `skipCache`), else fetch + pipeline, cache the
full list and return `slice(offset, offset + limit)` with the full length
as `total`.  Upstream failures are inside `llamaResult`/`balances`; every
path returns HTTP 200. -/
def GET (p : QueryParams) (now : Nat) (llamaResult : Except Unit (List GStrategy))
    (balances : Except Unit (List WalletBalance)) (cache : Cache) :
    GetResponse × Cache :=
  let key := cacheKey p
  let looked := if p.skipCache then (none, cache) else cacheGet cache key now
  match looked with
  | (some data, c) =>
    ({ status := 200, strategies := (data.drop p.offset).take p.limit
       total := data.length }, c)
  | (none, c) =>
    let full := fullPipeline p (getGnosisStrategies llamaResult) balances
    ({ status := 200, strategies := (full.drop p.offset).take p.limit
       total := full.length }, cacheSet c key full now)

end GetStrategies

namespace GetStrategies

/-- Shared machinery: a fresh `GET` caches the full pipeline output under
the request's key, and any later request with the same key (within the TTL,
not skipping the cache) is served the cached full list — sliced by its own
window — regardless of what the feed returns the second time. -/
lemma GET_cached_after_fresh (p p' : QueryParams) (now now' : Nat)
    (feed feed' : Except Unit (List GStrategy))
    (bal bal' : Except Unit (List WalletBalance)) (cache c0 : Cache)
    (hskip : p.skipCache = false) (hskip' : p'.skipCache = false)
    (hkey : cacheKey p' = cacheKey p)
    (hmiss : cacheGet cache (cacheKey p) now = (none, c0))
    (httl : now' ≤ now + DEFAULT_TTL) :
    (GET p now feed bal cache).1
      = { status := 200
          strategies := ((fullPipeline p (getGnosisStrategies feed) bal).drop
            p.offset).take p.limit
          total := (fullPipeline p (getGnosisStrategies feed) bal).length } ∧
    (GET p' now' feed' bal' (GET p now feed bal cache).2).1
      = { status := 200
          strategies := ((fullPipeline p (getGnosisStrategies feed) bal).drop
            p'.offset).take p'.limit
          total := (fullPipeline p (getGnosisStrategies feed) bal).length } := by
  have h1 : GET p now feed bal cache
      = ({ status := 200
           strategies := ((fullPipeline p (getGnosisStrategies feed) bal).drop
             p.offset).take p.limit
           total := (fullPipeline p (getGnosisStrategies feed) bal).length },
         cacheSet c0 (cacheKey p) (fullPipeline p (getGnosisStrategies feed) bal) now) := by
    unfold GET
    rw [hskip]
    simp only [Bool.false_eq_true, if_false, hmiss]
  refine ⟨by rw [h1], ?_⟩
  rw [h1]
  unfold GET
  rw [hskip']
  simp only [Bool.false_eq_true, if_false, hkey]
  have hget : cacheGet (cacheSet c0 (cacheKey p)
      (fullPipeline p (getGnosisStrategies feed) bal) now) (cacheKey p) now'
      = (some (fullPipeline p (getGnosisStrategies feed) bal),
         cacheSet c0 (cacheKey p) (fullPipeline p (getGnosisStrategies feed) bal) now) := by
    unfold cacheGet cacheSet
    simp only [List.lookup, beq_self_eq_true, if_pos]
    rw [if_neg (by unfold DEFAULT_TTL at httl ⊢; omega)]
  rw [hget]

end GetStrategies

/-- C5.  For every limit/offset window, a fresh `get-strategies` request
returns `slice(offset, offset + limit)` of the fully filtered and sorted
list with `total` equal to that full list's length; and a second request
with the same filter parameters but *any* other window, issued within the
TTL, is served from the same cache entry: it returns the corresponding slice
of the very same full list with the same `total` — independent of the
pagination window and of what the upstream feed would return meanwhile. -/
theorem getStrategies_pagination (p : GetStrategies.QueryParams) (now now' : Nat)
    (feed feed' : Except Unit (List GetStrategies.GStrategy))
    (bal bal' : Except Unit (List GetStrategies.WalletBalance))
    (cache c0 : GetStrategies.Cache) (limit' offset' : Nat)
    (hskip : p.skipCache = false)
    (hmiss : GetStrategies.cacheGet cache (GetStrategies.cacheKey p) now = (none, c0))
    (httl : now' ≤ now + GetStrategies.DEFAULT_TTL) :
    (GetStrategies.GET p now feed bal cache).1.strategies
      = ((GetStrategies.fullPipeline p (GetStrategies.getGnosisStrategies feed) bal).drop
          p.offset).take p.limit ∧
    (GetStrategies.GET p now feed bal cache).1.total
      = (GetStrategies.fullPipeline p (GetStrategies.getGnosisStrategies feed) bal).length ∧
    (GetStrategies.GET { p with limit := limit', offset := offset' } now' feed' bal'
        (GetStrategies.GET p now feed bal cache).2).1.strategies
      = ((GetStrategies.fullPipeline p (GetStrategies.getGnosisStrategies feed) bal).drop
          offset').take limit' ∧
    (GetStrategies.GET { p with limit := limit', offset := offset' } now' feed' bal'
        (GetStrategies.GET p now feed bal cache).2).1.total
      = (GetStrategies.fullPipeline p (GetStrategies.getGnosisStrategies feed) bal).length := by
  have h := GetStrategies.GET_cached_after_fresh p
    { p with limit := limit', offset := offset' } now now' feed feed' bal bal'
    cache c0 hskip hskip rfl hmiss httl
  exact ⟨by rw [h.1], by rw [h.1], by rw [h.2], by rw [h.2]⟩

namespace GetStrategies

/-- A strategy with negative APY, distinguishing `minApy=0` from an absent
`minApy`. -/
def negStrategy : GStrategy :=
  { id := "neg", asset := "X", apy := -1, riskLevel := "medium", apyMean30d := none,
    exposure := none, predictedClass := none, underlyingTokens := none,
    portfolioMatch := none }

/-- The request with every filter absent. -/
def defaultParams : QueryParams := {}

/-- The same request except `minApy=0`. -/
def minApyZeroParams : QueryParams := { minApy := some "0" }

end GetStrategies

/-- Witness for `getStrategies_pagination` at a concrete input. -/
theorem getStrategies_pagination_witness :
    (GetStrategies.GET GetStrategies.defaultParams 0
        (Except.ok [GetStrategies.negStrategy]) (Except.error ()) []).1.strategies
      = ((GetStrategies.fullPipeline GetStrategies.defaultParams
          (GetStrategies.getGnosisStrategies (Except.ok [GetStrategies.negStrategy]))
          (Except.error ())).drop 0).take 50 ∧
    (GetStrategies.GET GetStrategies.defaultParams 0
        (Except.ok [GetStrategies.negStrategy]) (Except.error ()) []).1.total
      = (GetStrategies.fullPipeline GetStrategies.defaultParams
          (GetStrategies.getGnosisStrategies (Except.ok [GetStrategies.negStrategy]))
          (Except.error ())).length ∧
    (GetStrategies.GET { GetStrategies.defaultParams with limit := 1, offset := 1 } 60000
        (Except.error ()) (Except.error ())
        (GetStrategies.GET GetStrategies.defaultParams 0
          (Except.ok [GetStrategies.negStrategy]) (Except.error ()) []).2).1.strategies
      = ((GetStrategies.fullPipeline GetStrategies.defaultParams
          (GetStrategies.getGnosisStrategies (Except.ok [GetStrategies.negStrategy]))
          (Except.error ())).drop 1).take 1 ∧
    (GetStrategies.GET { GetStrategies.defaultParams with limit := 1, offset := 1 } 60000
        (Except.error ()) (Except.error ())
        (GetStrategies.GET GetStrategies.defaultParams 0
          (Except.ok [GetStrategies.negStrategy]) (Except.error ()) []).2).1.total
      = (GetStrategies.fullPipeline GetStrategies.defaultParams
          (GetStrategies.getGnosisStrategies (Except.ok [GetStrategies.negStrategy]))
          (Except.error ())).length :=
  getStrategies_pagination GetStrategies.defaultParams 0 60000
    (Except.ok [GetStrategies.negStrategy]) (Except.error ()) (Except.error ())
    (Except.error ()) [] [] 1 1 rfl rfl (by norm_num [GetStrategies.DEFAULT_TTL])

namespace GetStrategies

lemma string_append_right_cancel {a b c : String} (h : a ++ c = b ++ c) : a = b := by
  apply String.ext
  have hd : a.data ++ c.data = b.data ++ c.data := by
    rw [← String.data_append, ← String.data_append, h]
  exact List.append_cancel_right hd

lemma string_append_left_cancel {a b c : String} (h : c ++ a = c ++ b) : a = b := by
  apply String.ext
  have hd : c.data ++ a.data = c.data ++ b.data := by
    rw [← String.data_append, ← String.data_append, h]
  exact List.append_cancel_left hd

lemma joinColon_cons_ne_nil (s : String) {rest : List String} (h : rest ≠ []) :
    joinColon (s :: rest) = s ++ ":" ++ joinColon rest := by
  cases rest with
  | nil => exact absurd rfl h
  | cons t ts => simp only [joinColon]

/-- If only one segment differs (and differs as a string), the joined keys
differ: the shared prefix and suffix cancel. -/
lemma joinColon_single_diff :
    ∀ (pre : List String) (x y : String) (post : List String), x ≠ y →
      joinColon (pre ++ x :: post) ≠ joinColon (pre ++ y :: post) := by
  intro pre
  induction pre with
  | nil =>
    intro x y post hxy
    cases post with
    | nil => simpa [joinColon] using hxy
    | cons q qs =>
      simp only [List.nil_append]
      rw [joinColon_cons_ne_nil x (by simp), joinColon_cons_ne_nil y (by simp)]
      intro h
      exact hxy (string_append_right_cancel
        (by simpa [String.append_assoc] using h))
  | cons p pre' ih =>
    intro x y post hxy
    simp only [List.cons_append]
    rw [joinColon_cons_ne_nil p (by simp), joinColon_cons_ne_nil p (by simp)]
    intro h
    exact ih x y post hxy (string_append_left_cancel (string_append_left_cancel
      (by simpa [String.append_assoc] using h)))

lemma lookup_filter_out_key (c : Cache) (key : String) :
    (c.filter (fun q => !(q.1 == key))).lookup key = none := by
  induction c with
  | nil => rfl
  | cons e t ih =>
    by_cases hk : (e.1 == key) = true
    · simp only [List.filter_cons, hk, Bool.not_true, Bool.false_eq_true, if_false]
      exact ih
    · have hk0 : (e.1 == key) = false := by
        cases hb : (e.1 == key) with
        | true => exact absurd hb hk
        | false => rfl
      have hk' : (key == e.1) = false := by
        rw [beq_eq_false_iff_ne] at hk0 ⊢
        exact fun habs => hk0 habs.symm
      simp only [List.filter_cons, hk0, Bool.not_false, if_true, List.lookup, hk']
      exact ih

lemma lookup_cons_self {β : Type} (k : String) (v : β) (t : List (String × β)) :
    List.lookup k ((k, v) :: t) = some v := by
  simp [List.lookup]

end GetStrategies

/-- C6, amended.  (i) Two requests with identical filter parameters within
the TTL window are served the identical strategy list from the same cache
entry; (ii) an entry whose TTL has elapsed is treated as absent and evicted
on the read — the request behaves exactly as if the entry were already
deleted; (iii) two requests that differ in a single filter parameter whose
key segments differ never share a cache entry.  The composition is *not*
injective, though: a parameter equal to its default placeholder produces the
same segment as the absent parameter while filtering differently — see
`cacheKey_not_injective`. -/
theorem getStrategies_cache_behavior :
    (∀ (p : GetStrategies.QueryParams) (now now' : Nat) feed feed' bal bal' cache c0,
      p.skipCache = false →
      GetStrategies.cacheGet cache (GetStrategies.cacheKey p) now = (none, c0) →
      now' ≤ now + GetStrategies.DEFAULT_TTL →
      (GetStrategies.GET p now' feed' bal'
          (GetStrategies.GET p now feed bal cache).2).1.strategies
        = (GetStrategies.GET p now feed bal cache).1.strategies) ∧
    (∀ (p : GetStrategies.QueryParams) (now : Nat) feed bal cache
        (e : GetStrategies.CacheEntry),
      p.skipCache = false →
      cache.lookup (GetStrategies.cacheKey p) = some e → e.expiry < now →
      GetStrategies.GET p now feed bal cache
        = GetStrategies.GET p now feed bal
            (cache.filter (fun q => !(q.1 == GetStrategies.cacheKey p)))) ∧
    (∀ (pre : List String) (x y : String) (post : List String), x ≠ y →
      "strategies:" ++ GetStrategies.joinColon (pre ++ x :: post)
        ≠ "strategies:" ++ GetStrategies.joinColon (pre ++ y :: post)) := by
  refine ⟨?_, ?_, ?_⟩
  · intro p now now' feed feed' bal bal' cache c0 hskip hmiss httl
    have h := GetStrategies.GET_cached_after_fresh p p now now' feed feed' bal bal'
      cache c0 hskip hskip rfl hmiss httl
    rw [h.1, h.2]
  · intro p now feed bal cache e hskip hlook hexp
    unfold GetStrategies.GET
    rw [hskip]
    have hL : GetStrategies.cacheGet cache (GetStrategies.cacheKey p) now
        = (none, cache.filter (fun q => !(q.1 == GetStrategies.cacheKey p))) := by
      unfold GetStrategies.cacheGet
      simp only [hlook]
      rw [if_pos hexp]
    have hR : GetStrategies.cacheGet
        (cache.filter (fun q => !(q.1 == GetStrategies.cacheKey p)))
        (GetStrategies.cacheKey p) now
        = (none, cache.filter (fun q => !(q.1 == GetStrategies.cacheKey p))) := by
      unfold GetStrategies.cacheGet
      rw [GetStrategies.lookup_filter_out_key]
    simp only [Bool.false_eq_true, if_false, hL, hR]
  · intro pre x y post hxy h
    exact GetStrategies.joinColon_single_diff pre x y post hxy
      (GetStrategies.string_append_left_cancel h)

/-- C6, counterexample.  `minApy` absent and `minApy = "0"` are different
requests with different filter semantics (a negative-APY strategy passes the
first and is dropped by the second), yet both map to the same cache key
(`'0'` is the defaulting placeholder of the template literal), so the second
request is served the first request's cached list — the stale list still
containing the negative-APY strategy — instead of its own filtered result. -/
theorem cacheKey_not_injective :
    GetStrategies.cacheKey GetStrategies.defaultParams
      = GetStrategies.cacheKey GetStrategies.minApyZeroParams ∧
    GetStrategies.defaultParams ≠ GetStrategies.minApyZeroParams ∧
    (GetStrategies.GET GetStrategies.minApyZeroParams 0
        (Except.ok [GetStrategies.negStrategy]) (Except.error ()) []).1.strategies
      = [] ∧
    (GetStrategies.GET GetStrategies.minApyZeroParams 1
        (Except.ok [GetStrategies.negStrategy]) (Except.error ())
        (GetStrategies.GET GetStrategies.defaultParams 0
          (Except.ok [GetStrategies.negStrategy]) (Except.error ()) []).2).1.strategies
      = [GetStrategies.negStrategy] := by
  refine ⟨rfl, by decide, rfl, ?_⟩
  have h := GetStrategies.GET_cached_after_fresh GetStrategies.defaultParams
    GetStrategies.minApyZeroParams 0 1 (Except.ok [GetStrategies.negStrategy])
    (Except.ok [GetStrategies.negStrategy]) (Except.error ()) (Except.error ())
    [] [] rfl rfl rfl rfl (by norm_num [GetStrategies.DEFAULT_TTL])
  rw [h.2]
  rfl

/-- Witness for `getStrategies_cache_behavior` at concrete inputs: a
within-TTL identical request pair, an expired entry, and two keys differing
in the minApy segment. -/
theorem getStrategies_cache_behavior_witness :
    (GetStrategies.GET GetStrategies.defaultParams 1 (Except.error ())
        (Except.error ())
        (GetStrategies.GET GetStrategies.defaultParams 0
          (Except.ok [GetStrategies.negStrategy]) (Except.error ()) []).2).1.strategies
      = (GetStrategies.GET GetStrategies.defaultParams 0
          (Except.ok [GetStrategies.negStrategy]) (Except.error ()) []).1.strategies ∧
    GetStrategies.GET GetStrategies.defaultParams 400000 (Except.error ())
        (Except.error ())
        [(GetStrategies.cacheKey GetStrategies.defaultParams,
          { data := [GetStrategies.negStrategy], expiry := 5 })]
      = GetStrategies.GET GetStrategies.defaultParams 400000 (Except.error ())
          (Except.error ())
          ([(GetStrategies.cacheKey GetStrategies.defaultParams,
            { data := [GetStrategies.negStrategy], expiry := 5 })].filter
            (fun q => !(q.1 == GetStrategies.cacheKey GetStrategies.defaultParams))) ∧
    "strategies:" ++ GetStrategies.joinColon (["all"] ++ "0" :: ["max"])
      ≠ "strategies:" ++ GetStrategies.joinColon (["all"] ++ "5" :: ["max"]) := by
  refine ⟨?_, ?_, ?_⟩
  · exact getStrategies_cache_behavior.1 GetStrategies.defaultParams 0 1
      (Except.ok [GetStrategies.negStrategy]) (Except.error ()) (Except.error ())
      (Except.error ()) [] [] rfl rfl (by norm_num [GetStrategies.DEFAULT_TTL])
  · exact getStrategies_cache_behavior.2.1 GetStrategies.defaultParams 400000
      (Except.error ()) (Except.error ())
      [(GetStrategies.cacheKey GetStrategies.defaultParams,
        { data := [GetStrategies.negStrategy], expiry := 5 })]
      { data := [GetStrategies.negStrategy], expiry := 5 } rfl
      (GetStrategies.lookup_cons_self (GetStrategies.cacheKey GetStrategies.defaultParams)
        ({ data := [GetStrategies.negStrategy], expiry := 5 } : GetStrategies.CacheEntry) [])
      (by norm_num)
  · exact getStrategies_cache_behavior.2.2 ["all"] "0" "5" ["max"] (by decide)

namespace GetStrategies

lemma fullPipeline_empty (p : QueryParams) (bal : Except Unit (List WalletBalance)) :
    fullPipeline p [] bal = [] := by
  cases bal <;>
    simp [fullPipeline, applyFilters, analyzePortfolioStrategies, stableSortBy]

/-- `getAllStrategies` of the subgraph service (`services/graph/index.ts`):
every per-protocol fetcher catches its own errors and degrades to `[]`, so
the aggregate never throws — results are concatenated. -/
def getAllStrategies (results : List (Except Unit (List GStrategy))) :
    List GStrategy :=
  (results.map (fun r =>
    match r with
    | Except.ok l => l
    | Except.error _ => [])).flatten

/-- `getGnosisStrategies` of the superseded merged-route variant
(`src/unnamed/part_003`, lines 107–137): DeFiLlama data (degrading to `[]`
on failure) merged with subgraph data deduplicated by id.  The source wraps
this body in a `try/catch` returning `getFallbackStrategies()`, but the body
cannot throw — `getDefiLlamaStrategies` and `getAllStrategies` both catch
their own errors — so the static fallback is unreachable on fetch failures
and is omitted from the translation of the (total) body. -/
def variantGetGnosisStrategies (source : String)
    (llamaFetch : Except Unit (List GStrategy))
    (subgraphFetches : List (Except Unit (List GStrategy))) : List GStrategy :=
  let strategies :=
    if source == "all" || source == "defillama" then
      getDefiLlamaStrategies llamaFetch
    else []
  if source == "all" || source == "subgraph" then
    let subgraphStrategies := getAllStrategies subgraphFetches
    if source == "all" then
      let defiLlamaIds := strategies.map (fun s => s.id)
      strategies ++ subgraphStrategies.filter (fun s => !(defiLlamaIds.contains s.id))
    else subgraphStrategies
  else strategies

/-- `getFallbackStrategies` (`src/unnamed/part_003`, lines 260–354),
restricted to the fields of the pipeline model. -/
def getFallbackStrategies : List GStrategy :=
  [{ id := "agave-xdai", asset := "xDAI", apy := 26/5, riskLevel := "low",
     apyMean30d := none, exposure := none, predictedClass := none,
     underlyingTokens := none, portfolioMatch := none },
   { id := "honeyswap-gno-xdai", asset := "GNO-xDAI", apy := 79/5,
     riskLevel := "medium", apyMean30d := none, exposure := none,
     predictedClass := none, underlyingTokens := none, portfolioMatch := none },
   { id := "swapr-gno-wxdai", asset := "GNO-WXDAI", apy := 91/5,
     riskLevel := "medium", apyMean30d := none, exposure := none,
     predictedClass := none, underlyingTokens := none, portfolioMatch := none },
   { id := "bao-finance-vaults", asset := "GNO-ETH", apy := 49/2,
     riskLevel := "high", apyMean30d := none, exposure := none,
     predictedClass := none, underlyingTokens := none, portfolioMatch := none },
   { id := "symmetric-staking", asset := "SYMM", apy := 21/2,
     riskLevel := "medium", apyMean30d := none, exposure := none,
     predictedClass := none, underlyingTokens := none, portfolioMatch := none },
   { id := "curve-xdai-usdc", asset := "xDAI-USDC", apy := 24/5,
     riskLevel := "low", apyMean30d := none, exposure := none,
     predictedClass := none, underlyingTokens := none, portfolioMatch := none }]

end GetStrategies

/-- C9, amended.  When the primary yield-feed fetch fails, `get-strategies`
still answers HTTP 200, but (i) the canonical route returns the *empty*
strategy list, not the hardcoded static fallback; (ii) the merged variant
degrades to the subgraph-derived list (the static fallback is reachable only
if aggregation itself throws, which the fetchers' own catches prevent); and
(iii) no response field marks the data source: the failure response is
byte-identical to a live response over an empty feed. -/
theorem getStrategies_feed_failure_behavior :
    (∀ (p : GetStrategies.QueryParams) (now : Nat) bal cache c0,
      p.skipCache = false →
      GetStrategies.cacheGet cache (GetStrategies.cacheKey p) now = (none, c0) →
      (GetStrategies.GET p now (Except.error ()) bal cache).1
        = { status := 200, strategies := [], total := 0 }) ∧
    (∀ subs, GetStrategies.variantGetGnosisStrategies "all" (Except.error ()) subs
      = GetStrategies.getAllStrategies subs) ∧
    (∀ (p : GetStrategies.QueryParams) (now : Nat) bal cache,
      GetStrategies.GET p now (Except.error ()) bal cache
        = GetStrategies.GET p now (Except.ok []) bal cache) := by
  refine ⟨?_, ?_, ?_⟩
  · intro p now bal cache c0 hskip hmiss
    unfold GetStrategies.GET
    rw [hskip]
    simp only [Bool.false_eq_true, if_false, hmiss]
    simp [GetStrategies.getGnosisStrategies, GetStrategies.getDefiLlamaStrategies,
      GetStrategies.fullPipeline_empty]
  · intro subs
    simp [GetStrategies.variantGetGnosisStrategies,
      GetStrategies.getDefiLlamaStrategies]
  · intro p now bal cache
    rfl

/-- C9, counterexample.  On a primary-feed outage (and a subgraph outage for
the variant) the responses carry the empty list, not the static fallback
list the claim promises, and the response record has no source marker at
all. -/
theorem getStrategies_failure_returns_empty_not_fallback :
    (GetStrategies.GET GetStrategies.defaultParams 0 (Except.error ())
        (Except.error ()) []).1
      = { status := 200, strategies := [], total := 0 } ∧
    GetStrategies.variantGetGnosisStrategies "all" (Except.error ())
        [Except.error ()] = [] ∧
    GetStrategies.getFallbackStrategies ≠ [] := by
  refine ⟨rfl, rfl, by simp [GetStrategies.getFallbackStrategies]⟩

/-- Witness for `getStrategies_feed_failure_behavior` at concrete inputs. -/
theorem getStrategies_feed_failure_behavior_witness :
    (GetStrategies.GET GetStrategies.defaultParams 7 (Except.error ())
        (Except.error ()) []).1
      = { status := 200, strategies := [], total := 0 } ∧
    GetStrategies.variantGetGnosisStrategies "all" (Except.error ())
        [Except.ok [GetStrategies.negStrategy]]
      = GetStrategies.getAllStrategies [Except.ok [GetStrategies.negStrategy]] ∧
    GetStrategies.GET GetStrategies.defaultParams 7 (Except.error ())
        (Except.error ()) []
      = GetStrategies.GET GetStrategies.defaultParams 7 (Except.ok [])
        (Except.error ()) [] :=
  ⟨getStrategies_feed_failure_behavior.1 GetStrategies.defaultParams 7
      (Except.error ()) [] [] rfl rfl,
   getStrategies_feed_failure_behavior.2.1 [Except.ok [GetStrategies.negStrategy]],
   getStrategies_feed_failure_behavior.2.2 GetStrategies.defaultParams 7
      (Except.error ()) []⟩
